/-
Verification of the self-update/rollback controller (app/services/updater.py).

The Python module shells out to external commands (git, pip, systemctl, ...),
reads and writes a JSON state file and an append-only log, and performs an
HTTP request for release notes.  We model the environment as a read-only
oracle (`World`): the outcome of every external command, the filesystem
contents, availability of binaries, the HTTP response and the JSON
(de)serialisation are fields of the oracle.  Every embedded function runs in
a writer/except monad `M`: it may raise a Python-level exception (`Exc`) and
it records every externally visible action (`Effect`) in an ordered trace.
File writes, directory creation, log appends and executed commands all
appear in the trace, so frame properties ("no state write", "no command
run") are statements about the trace.  Reads (file contents, `which`,
command outcomes) consult the oracle and leave no trace entry, matching the
Python code where only mutations and log appends are observable effects.

String operations (strip, lower, split, containment) are re-implemented
over `List Char` with structural recursion so that every definition is
kernel-computable; they mirror Python's `str.strip`, `str.lower`,
`str.split`, `in`, `endswith` on the ASCII inputs the module handles.
-/
import Mathlib

namespace Updater

/-! ## Python string primitives -/

/-- Python `str.strip()` (ASCII whitespace). -/
def pyStrip (s : String) : String :=
  String.mk (((s.data.dropWhile Char.isWhitespace).reverse.dropWhile Char.isWhitespace).reverse)

/-- Python `str.lower()` (ASCII). -/
def pyLower (s : String) : String :=
  String.mk (s.data.map Char.toLower)

/-- Python `a or b` for strings: the empty string is falsy. -/
def pyOrS (a b : String) : String :=
  if a = "" then b else a

/-- Python `x or b` where `x : str | None`: both `None` and `""` are falsy. -/
def pyOr (a : Option String) (b : String) : String :=
  match a with
  | none => b
  | some v => if v = "" then b else v

/-- Does the list `pat` start the list `s`? -/
def listStarts {α : Type} [BEq α] : List α → List α → Bool
  | [], _ => true
  | _ :: _, [] => false
  | a :: as, b :: bs => a == b && listStarts as bs

/-- Does the list `pat` end the list `s`? -/
def listEnds {α : Type} [BEq α] (pat s : List α) : Bool :=
  listStarts pat.reverse s.reverse

/-- Python `s.endswith(pat)`. -/
def strEnds (s pat : String) : Bool :=
  listStarts pat.data.reverse s.data.reverse

/-- All tail segments of a character list (including the empty one). -/
def charTails : List Char → List (List Char)
  | [] => [[]]
  | c :: cs => (c :: cs) :: charTails cs

/-- Python `pat in s` (substring containment). -/
def strHas (s pat : String) : Bool :=
  (charTails s.data).any (listStarts pat.data)

/-- Split a character list at every occurrence of the character `sep`. -/
def splitCharAux (sep : Char) : List Char → List Char → List String
  | [], acc => [String.mk acc.reverse]
  | c :: cs, acc =>
    if c == sep then String.mk acc.reverse :: splitCharAux sep cs []
    else splitCharAux sep cs (c :: acc)

/-- Python `s.split(sep)` for a one-character separator. -/
def splitChar (sep : Char) (s : String) : List String :=
  splitCharAux sep s.data []

/-- Python `str.splitlines()` restricted to `\n` separators:
the empty string gives no lines and a trailing newline adds no empty line. -/
def pySplitlines (s : String) : List String :=
  if s = "" then []
  else if strEnds s "\n" then (splitChar '\n' s).dropLast
  else splitChar '\n' s

/-- Remove every occurrence of the character `c` (Python `s.replace(c, "")`). -/
def removeChar (c : Char) (s : String) : String :=
  String.mk (s.data.filter (fun d => d ≠ c))

/-- Python `s.rstrip(chr)` for a single character. -/
def stripTrailing (c : Char) (s : String) : String :=
  String.mk ((s.data.reverse.dropWhile (fun d => d == c)).reverse)

/-- Python `s.rstrip()` (trailing ASCII whitespace). -/
def stripTrailingWS (s : String) : String :=
  String.mk ((s.data.reverse.dropWhile Char.isWhitespace).reverse)

/-- Python `sep.join(xs)`. -/
def joinWith (sep : String) : List String → String
  | [] => ""
  | [x] => x
  | x :: y :: rest => x ++ sep ++ joinWith sep (y :: rest)

/-- Decimal digits of a natural number (fuel-driven so it is structural). -/
def natDigits : Nat → Nat → List Char
  | 0, _ => []
  | fuel + 1, n =>
    if n < 10 then [Char.ofNat (48 + n)]
    else natDigits fuel (n / 10) ++ [Char.ofNat (48 + n % 10)]

/-- Decimal rendering of a natural number. -/
def natToStr (n : Nat) : String :=
  String.mk (natDigits (n + 1) n)

/-- Is the path absolute (POSIX convention, as in the deployment layout)? -/
def isAbsolutePath (p : String) : Bool :=
  listStarts ['/'] p.data

/-- Parent directory of a slash-separated path (`Path.parent`). -/
def dirname (p : String) : String :=
  let parts := splitChar '/' p
  if parts.length ≤ 1 then "." else joinWith "/" parts.dropLast

/-! ## Data model (the dataclasses of updater.py) -/

/-- The `CommitInfo` dataclass. -/
structure CommitInfo where
  full_hash : String
  short_hash : String
  author : String
  date_iso : String
  subject : String
deriving DecidableEq, Repr

/-- Result of `subprocess.run` (`CompletedProcess[str]`). -/
structure CompletedProcess where
  returncode : Int
  stdout : String
  stderr : String
deriving DecidableEq, Repr

/-- Outcome of attempting to execute one external command. -/
inductive RunOutcome where
  | completed (c : CompletedProcess)
  | timedOut
  | execMissing
deriving DecidableEq, Repr

/-- Python exceptions that the module raises or propagates. -/
inductive Exc where
  | updateError (msg : String)
  | osError (msg : String)
deriving DecidableEq, Repr

/-- Python `str(exc)`. -/
def excMsg : Exc → String
  | Exc.updateError m => m
  | Exc.osError m => m

/-- Externally visible actions, in execution order. -/
inductive Effect where
  | ranCommand (args : List String)
  | appendedLog (path : String) (text : String)
  | madeDir (path : String)
  | wroteFile (path : String) (content : String)
  | renamedFile (src : String) (dst : String)
deriving DecidableEq, Repr

/-- HTTP interaction of the release-notes fetch: either the request raised,
or it returned a status code and (when the body parsed as a JSON object)
a string-valued dictionary. -/
inductive HttpResult where
  | raised
  | response (status : Nat) (payload : Option (List (String × String)))
deriving DecidableEq, Repr

/-- The read-only environment oracle. -/
structure World where
  /-- Outcome of executing an argument vector (in the repository root). -/
  run : List String → RunOutcome
  /-- Oracle for `Path.exists`. -/
  pathExists : String → Bool
  /-- Oracle for `Path.read_text`; `none` means the read raises. -/
  fileContent : String → Option String
  /-- Oracle for `shutil.which name is not None`. -/
  which : String → Bool
  /-- The release-API call of `get_latest_release_notes`. -/
  latestRelease : HttpResult
  /-- Oracle for `json.loads` on the state file, kept only when the result is a dict
  (string-valued in our model); `none` covers parse failures and non-dicts. -/
  parseJsonDict : String → Option (List (String × String))
  /-- Oracle for `json.dumps(payload, ensure_ascii=False, indent=2)`. -/
  dumpJson : List (String × String) → String
  /-- Oracle for `shlex.split` on the custom restart command. -/
  shlexSplit : String → List String
  /-- Oracle for `datetime.now(timezone.utc).isoformat()`. -/
  now : String

/-- Configuration fields consumed by updater.py.
Modelled from the spec: the `Settings` class in `app/config.py` does not
declare these update-related fields, so their declarations are taken from
the spec's external-interface section ("a configuration object with
preferred branch or empty, restart mode plus mode parameters, release-API
repo identifier and optional token, State Store/log paths"); each field is
an optional string so that both an unset and an empty value are expressible. -/
structure Settings where
  update_branch : Option String := none
  service_restart_mode : Option String := none
  systemd_service_name : Option String := none
  docker_compose_file : Option String := none
  docker_compose_service : Option String := none
  pm2_process_name : Option String := none
  custom_restart_cmd : Option String := none
  update_state_path : Option String := none
  update_log_path : Option String := none
  github_repo : Option String := none
  github_token : Option String := none
deriving DecidableEq, Repr

/-- The `UpdateStatus` dataclass. -/
structure UpdateStatus where
  branch : String
  current : Option CommitInfo
  remote : Option CommitInfo
  has_updates : Bool
  commits : List CommitInfo
  release : Option (List (String × String))
  changelog_excerpt : Option String
  errors : List String
deriving DecidableEq, Repr

/-- The `UpdateRunResult` dataclass. -/
structure UpdateRunResult where
  ok : Bool
  branch : String
  before : Option CommitInfo
  after : Option CommitInfo
  remote : Option CommitInfo
  changed_files : List String
  steps : List String
  restart_required : Bool
  restart_performed : Bool
  error : Option String
deriving DecidableEq, Repr

/-- The `RollbackResult` dataclass. -/
structure RollbackResult where
  ok : Bool
  target_commit : Option String
  before : Option CommitInfo
  after : Option CommitInfo
  steps : List String
  restart_required : Bool
  restart_performed : Bool
  error : Option String
deriving DecidableEq, Repr

/-! ## The effect/exception monad -/

/-- A computation: given the trace so far, produce a result or an exception,
together with the extended trace. -/
def M (α : Type) : Type := List Effect → Except Exc α × List Effect

/-- Monadic bind: effects accumulate; an exception aborts the rest. -/
def M.bind {α β : Type} (x : M α) (f : α → M β) : M β := fun tr =>
  match x tr with
  | (Except.ok a, tr2) => f a tr2
  | (Except.error e, tr2) => (Except.error e, tr2)

/-- Monadic pure. -/
def M.pure {α : Type} (a : α) : M α := fun tr => (Except.ok a, tr)

instance : Monad M where
  pure := M.pure
  bind := M.bind

/-- Record one effect. -/
def M.emit (e : Effect) : M PUnit := fun tr => (Except.ok PUnit.unit, tr ++ [e])

/-- Raise a Python exception. -/
def M.throw {α : Type} (e : Exc) : M α := fun tr => (Except.error e, tr)

/-- Run from the empty trace. -/
def M.exec {α : Type} (x : M α) : Except Exc α × List Effect := x []

/-- Reify the outcome of a sub-computation (a `try`/`except` boundary):
the result never raises, effects persist. -/
def M.toSum {α : Type} (x : M α) : M (Except Exc α) := fun tr =>
  match x tr with
  | (Except.ok a, tr2) => (Except.ok (Except.ok a), tr2)
  | (Except.error e, tr2) => (Except.ok (Except.error e), tr2)

@[simp] theorem M.bind_eq {α β : Type} (x : M α) (f : α → M β) :
    x >>= f = M.bind x f := rfl

@[simp] theorem M.pure_eq {α : Type} (a : α) :
    (Pure.pure a : M α) = M.pure a := rfl

/-! ## Embedded functions of updater.py

Each definition is a direct translation of the function of the same
(snake-cased) name; `root` stands for `_repo_root()`, which every public
function computes for itself. -/

/-- Diagnostic used by the not-a-repository branches. -/
def gitMissingMsg : String :=
  "Каталог приложения не является git-репозиторием (.git отсутствует)."

/-- Embeds `_sanitize_log`. -/
def sanitizeLog (text : String) : String :=
  stripTrailing '\n' (removeChar '\r' text)

/-- Embeds `_append_log`: ensure the parent directory, then append one stamped line.
The wall-clock stamp is not part of the recorded effect. -/
def appendLog (logPath : String) (text : String) : M PUnit :=
  M.bind (M.emit (Effect.madeDir (dirname logPath))) (fun _ =>
    M.emit (Effect.appendedLog logPath (sanitizeLog text)))

/-- The timeout message of `_run_command`. -/
def timeoutMsg (timeoutSec : Nat) (args : List String) : String :=
  "Command timed out after " ++ natToStr timeoutSec ++ "s: " ++ joinWith " " args

/-- The fallback chain `stderr or stdout or "command failed"` in `_run_command`. -/
def failureText (c : CompletedProcess) : String :=
  pyOrS (pyStrip c.stderr) (pyOrS (pyStrip c.stdout) "command failed")

/-- Embeds `_run_command`: optionally log the command line, execute it, log the
captured output, and in strict mode raise on a non-zero exit.  A timeout
raises `UpdateError` even in non-strict mode; a missing binary raises the
uncaught `FileNotFoundError` of `subprocess.run`. -/
def runCommand (w : World) (args : List String) (logPath : Option String)
    (check : Bool) (timeoutSec : Nat) : M CompletedProcess :=
  M.bind (match logPath with
          | some lp => appendLog lp ("$ " ++ joinWith " " args)
          | none => M.pure PUnit.unit) (fun _ =>
  match w.run args with
  | RunOutcome.timedOut =>
      M.bind (M.emit (Effect.ranCommand args)) (fun _ =>
      M.bind (match logPath with
              | some lp => appendLog lp (timeoutMsg timeoutSec args)
              | none => M.pure PUnit.unit) (fun _ =>
      M.throw (Exc.updateError (timeoutMsg timeoutSec args))))
  | RunOutcome.execMissing =>
      M.throw (Exc.osError ("No such file or directory: " ++ joinWith " " args))
  | RunOutcome.completed c =>
      M.bind (M.emit (Effect.ranCommand args)) (fun _ =>
      M.bind (match logPath with
              | some lp =>
                M.bind (if c.stdout ≠ "" then appendLog lp (pyStrip c.stdout)
                        else M.pure PUnit.unit) (fun _ =>
                  if c.stderr ≠ "" then appendLog lp (pyStrip c.stderr)
                  else M.pure PUnit.unit)
              | none => M.pure PUnit.unit) (fun _ =>
      if check && c.returncode != 0 then M.throw (Exc.updateError (failureText c))
      else M.pure c)))

/-- Embeds `_is_git_repo`. -/
def isGitRepo (w : World) : M Bool :=
  M.bind (runCommand w ["git", "rev-parse", "--is-inside-work-tree"] none false 300)
    (fun c => M.pure (c.returncode == 0 && pyLower (pyStrip c.stdout) == "true"))

/-- Embeds `_venv_python`. -/
def venvPython (w : World) (root : String) : List String :=
  if w.pathExists (root ++ "/.venv/Scripts/python.exe") then
    [root ++ "/.venv/Scripts/python.exe"]
  else if w.pathExists (root ++ "/.venv/bin/python") then
    [root ++ "/.venv/bin/python"]
  else ["python"]

/-- The `--format` argument of the commit queries. -/
def commitFormat : String := "--format=%H%x1f%h%x1f%an%x1f%cI%x1f%s"

/-- Embeds `_parse_commit_line`: split on the unit separator, require 5 fields. -/
def parseCommitLine (raw : String) : Option CommitInfo :=
  let text := pyStrip raw
  if text = "" then none
  else
    let parts := splitChar '\x1f' text
    if parts.length < 5 then none
    else some
      { full_hash := pyStrip (parts.getD 0 "")
        short_hash := pyStrip (parts.getD 1 "")
        author := pyStrip (parts.getD 2 "")
        date_iso := pyStrip (parts.getD 3 "")
        subject := pyStrip (parts.getD 4 "") }

/-- Embeds `get_current_branch`. -/
def getCurrentBranch (w : World) : M String :=
  M.bind (runCommand w ["git", "rev-parse", "--abbrev-ref", "HEAD"] none false 300)
    (fun c => M.pure (pyOrS (pyStrip c.stdout) "main"))

/-- Embeds `fetch_remote`. -/
def fetchRemote (w : World) (branch : String) (logPath : Option String) : M Bool :=
  M.bind (runCommand w ["git", "fetch", "--prune", "origin", branch] logPath false 300)
    (fun c => M.pure (c.returncode == 0))

/-- Embeds `_remote_branch_exists`. -/
def remoteBranchExists (w : World) (branch : String) : M Bool :=
  M.bind (runCommand w ["git", "rev-parse", "--verify", "origin/" ++ branch] none false 300)
    (fun c => M.pure (c.returncode == 0))

/-- Candidate accumulation of `resolve_branch`: keep non-empty stripped
names, first occurrence only. -/
def buildCandidates (items : List String) : List String :=
  List.foldl
    (fun acc item =>
      let v := pyStrip item
      if v ≠ "" ∧ ¬ acc.contains v then acc ++ [v] else acc)
    [] items

/-- The probe loop of `resolve_branch`: first candidate whose remote exists. -/
def firstExistingRemote (w : World) : List String → M (Option String)
  | [] => M.pure none
  | b :: rest =>
    M.bind (remoteBranchExists w b) (fun ok =>
      if ok then M.pure (some b) else firstExistingRemote w rest)

/-- Embeds `resolve_branch`. -/
def resolveBranch (w : World) (settings : Settings) : M String :=
  let p0 := pyStrip (pyOr settings.update_branch "")
  M.bind (if p0 = "" then getCurrentBranch w else M.pure p0) (fun preferred =>
  M.bind (getCurrentBranch w) (fun current =>
  M.bind (firstExistingRemote w (buildCandidates [preferred, current, "main", "master"]))
    (fun found =>
      match found with
      | some b => M.pure b
      | none => M.pure (pyOrS preferred "main"))))

/-- The value-level part of `get_commit_info`: `None` on a non-zero exit,
otherwise the parsed commit line. -/
def commitOf (c : CompletedProcess) : Option CommitInfo :=
  if c.returncode != 0 then none else parseCommitLine c.stdout

/-- Embeds `get_commit_info`. -/
def getCommitInfo (w : World) (ref : String) : M (Option CommitInfo) :=
  M.bind (runCommand w ["git", "show", "-s", commitFormat, ref] none false 300)
    (fun c => M.pure (commitOf c))

/-- Embeds `get_remote_commit`. -/
def getRemoteCommit (w : World) (branch : String) : M (Option CommitInfo) :=
  getCommitInfo w ("origin/" ++ branch)

/-- Embeds `get_commits_between`. -/
def getCommitsBetween (w : World) (startRef endRef : String) (limit : Nat) :
    M (List CommitInfo) :=
  M.bind (runCommand w
      ["git", "log", "--reverse", "--max-count=" ++ natToStr (max 1 limit),
       commitFormat, startRef ++ ".." ++ endRef] none false 300)
    (fun c =>
      if c.returncode != 0 then M.pure []
      else M.pure ((pySplitlines c.stdout).filterMap parseCommitLine))

/-- Embeds `get_changed_files_between`. -/
def getChangedFilesBetween (w : World) (startRef endRef : String) : M (List String) :=
  M.bind (runCommand w ["git", "diff", "--name-only", startRef ++ ".." ++ endRef]
      none false 300)
    (fun c =>
      if c.returncode != 0 then M.pure []
      else M.pure (((pySplitlines c.stdout).map pyStrip).filter (fun l => l ≠ "")))

/-- Embeds `pull_fast_forward` (strict mode). -/
def pullFastForward (w : World) (branch : String) (logPath : Option String) : M PUnit :=
  M.bind (runCommand w ["git", "pull", "--ff-only", "origin", branch] logPath true 300)
    (fun _ => M.pure PUnit.unit)

/-- Embeds `_install_requirements_if_needed`. -/
def installRequirementsIfNeeded (w : World) (changedFiles : List String)
    (root : String) (logPath : Option String) : M Bool :=
  if ¬ changedFiles.contains "requirements.txt" then M.pure false
  else if ¬ w.pathExists (root ++ "/requirements.txt") then M.pure false
  else
    M.bind (runCommand w
        (venvPython w root ++ ["-m", "pip", "install", "-r", "requirements.txt"])
        logPath true 300)
      (fun _ => M.pure true)

/-- Embeds `_install_node_if_needed`: lockfile-driven install, pnpm then npm then
yarn, first match only. -/
def installNodeIfNeeded (w : World) (changedFiles : List String)
    (root : String) (logPath : Option String) : M Bool :=
  if changedFiles.contains "pnpm-lock.yaml" && w.pathExists (root ++ "/pnpm-lock.yaml")
      && w.which "pnpm" then
    M.bind (runCommand w ["pnpm", "install", "--frozen-lockfile"] logPath true 300)
      (fun _ => M.pure true)
  else if changedFiles.contains "package-lock.json"
      && w.pathExists (root ++ "/package-lock.json") && w.which "npm" then
    M.bind (runCommand w ["npm", "ci"] logPath true 300) (fun _ => M.pure true)
  else if changedFiles.contains "yarn.lock" && w.pathExists (root ++ "/yarn.lock")
      && w.which "yarn" then
    M.bind (runCommand w ["yarn", "install", "--frozen-lockfile"] logPath true 300)
      (fun _ => M.pure true)
  else M.pure false

/-- The migration-marker test of `_run_migrations_if_needed` (on lowered paths). -/
def mayNeedMigrations (changedFiles : List String) : Bool :=
  (changedFiles.map pyLower).any (fun item =>
    strHas item "migrations/" || strEnds item "/alembic.ini" || strHas item "alembic/")

/-- Embeds `_run_migrations_if_needed`: alembic before manage.py, first match only. -/
def runMigrationsIfNeeded (w : World) (changedFiles : List String)
    (root : String) (logPath : Option String) : M Bool :=
  if ¬ mayNeedMigrations changedFiles then M.pure false
  else
    let pyCmd := venvPython w root
    if w.pathExists (root ++ "/alembic.ini") then
      M.bind (runCommand w (pyCmd ++ ["-m", "alembic", "upgrade", "head"]) logPath true 300)
        (fun _ => M.pure true)
    else if w.pathExists (root ++ "/manage.py") then
      M.bind (runCommand w (pyCmd ++ ["manage.py", "migrate", "--noinput"]) logPath true 300)
        (fun _ => M.pure true)
    else M.pure false

/-- Embeds `run_post_update_steps`. -/
def runPostUpdateSteps (w : World) (changedFiles : List String)
    (root : String) (logPath : Option String) : M (List String) :=
  M.bind (installRequirementsIfNeeded w changedFiles root logPath) (fun r =>
  M.bind (installNodeIfNeeded w changedFiles root logPath) (fun n =>
  M.bind (runMigrationsIfNeeded w changedFiles root logPath) (fun m =>
    M.pure ((if r then ["pip install -r requirements.txt"] else []) ++
            (if n then ["node deps installed"] else []) ++
            (if m then ["migrations applied"] else [])))))

/-- The normalised restart mode: `(settings.service_restart_mode or "systemd").strip().lower()`. -/
def restartModeOf (settings : Settings) : String :=
  pyLower (pyStrip (pyOr settings.service_restart_mode "systemd"))

/-- The systemd unit name: `(settings.systemd_service_name or "serverredus-backend").strip()`. -/
def unitNameOf (settings : Settings) : String :=
  pyStrip (pyOr settings.systemd_service_name "serverredus-backend")

/-- Embeds `restart_service`: dispatch on the normalised mode.  The repository
root is only the working directory of the spawned commands, which the
command oracle does not distinguish. -/
def restartService (w : World) (settings : Settings) (_root : String)
    (logPath : Option String) : M String :=
  let mode := restartModeOf settings
  if mode = "" ∨ mode = "none" then M.pure "restart skipped"
  else if mode = "systemd" then
    let serviceName := unitNameOf settings
    if w.which "sudo" then
      M.bind (runCommand w ["sudo", "-n", "systemctl", "restart", serviceName]
          logPath false 300) (fun c =>
        if c.returncode == 0 then M.pure ("systemd restart: " ++ serviceName)
        else
          M.bind (runCommand w ["systemctl", "restart", serviceName] logPath true 300)
            (fun _ => M.pure ("systemd restart: " ++ serviceName)))
    else
      M.bind (runCommand w ["systemctl", "restart", serviceName] logPath true 300)
        (fun _ => M.pure ("systemd restart: " ++ serviceName))
  else if mode = "docker_compose" then
    let composeFile := pyStrip (pyOr settings.docker_compose_file "")
    let serviceName := pyStrip (pyOr settings.docker_compose_service "")
    let cmd := ["docker", "compose"] ++
      (if composeFile ≠ "" then ["-f", composeFile] else []) ++
      ["up", "-d", "--build"] ++
      (if serviceName ≠ "" then [serviceName] else [])
    M.bind (runCommand w cmd logPath true 300)
      (fun _ => M.pure "docker compose up -d --build")
  else if mode = "pm2" then
    let processName := pyOrS (pyStrip (pyOr settings.pm2_process_name "all")) "all"
    M.bind (runCommand w ["pm2", "restart", processName] logPath true 300)
      (fun _ => M.pure ("pm2 restart " ++ processName))
  else if mode = "custom" then
    let customCmd := pyStrip (pyOr settings.custom_restart_cmd "")
    if customCmd = "" then M.throw (Exc.updateError "CUSTOM_RESTART_CMD is empty")
    else
      let args := w.shlexSplit customCmd
      if args = [] then M.throw (Exc.updateError "CUSTOM_RESTART_CMD is invalid")
      else
        M.bind (runCommand w args logPath true 300)
          (fun _ => M.pure ("custom restart: " ++ customCmd))
  else M.throw (Exc.updateError ("Unknown restart mode: " ++ mode))

/-- Embeds `_state_path`. -/
def statePathOf (settings : Settings) (root : String) : String :=
  let raw := pyStrip (pyOr settings.update_state_path "")
  if raw ≠ "" then (if isAbsolutePath raw then raw else root ++ "/" ++ raw)
  else root ++ "/data/update_state.json"

/-- Embeds `_log_path`. -/
def logPathOf (settings : Settings) (root : String) : String :=
  let raw := pyStrip (pyOr settings.update_log_path "")
  if raw ≠ "" then (if isAbsolutePath raw then raw else root ++ "/" ++ raw)
  else root ++ "/data/logs/update.log"

/-- Embeds `_load_state`: absent, unreadable, unparseable or non-dict content all
degrade to the empty record. -/
def loadState (w : World) (settings : Settings) (root : String) :
    List (String × String) :=
  let p := statePathOf settings root
  if ¬ w.pathExists p then []
  else
    match w.fileContent p with
    | none => []
    | some raw =>
      match w.parseJsonDict raw with
      | none => []
      | some d => d

/-- Embeds `_save_state`: ensure the parent directory, then one direct
`write_text` of the serialised payload to the target path. -/
def saveState (w : World) (settings : Settings) (root : String)
    (payload : List (String × String)) : M PUnit :=
  let p := statePathOf settings root
  M.bind (M.emit (Effect.madeDir (dirname p)))
    (fun _ => M.emit (Effect.wroteFile p (w.dumpJson payload)))

/-- Python `state.get(key)` followed by `str(x or "")` for string-valued records. -/
def stateGetStr (st : List (String × String)) (k : String) : String :=
  match st.find? (fun kv => kv.fst == k) with
  | none => ""
  | some kv => kv.snd

/-- One `dict[k] = v` assignment (insertion order preserved). -/
def dictSet (st : List (String × String)) (k v : String) : List (String × String) :=
  if (st.find? (fun kv => kv.fst == k)).isSome then
    st.map (fun kv => if kv.fst == k then (k, v) else kv)
  else st ++ [(k, v)]

/-- Python `dict.update`: merge the new pairs into the record. -/
def dictUpdate (st upd : List (String × String)) : List (String × String) :=
  List.foldl (fun acc kv => dictSet acc kv.fst kv.snd) st upd

/-- Python `payload.get(key)` followed by `str(x or "").strip()`. -/
def jsonFieldStr (payload : List (String × String)) (k : String) : String :=
  pyStrip (stateGetStr payload k)

/-- Embeds `get_latest_release_notes`: every network or parse failure yields `None`. -/
def getLatestReleaseNotes (w : World) (settings : Settings) :
    Option (List (String × String)) :=
  let repo := pyStrip (pyOr settings.github_repo "")
  if repo = "" ∨ ¬ strHas repo "/" then none
  else
    match w.latestRelease with
    | HttpResult.raised => none
    | HttpResult.response status payload =>
      if status = 404 then none
      else if 400 ≤ status then none
      else
        match payload with
        | none => none
        | some p => some
            [("tag", jsonFieldStr p "tag_name"),
             ("name", jsonFieldStr p "name"),
             ("body", jsonFieldStr p "body"),
             ("published_at", jsonFieldStr p "published_at"),
             ("url", jsonFieldStr p "html_url")]

/-- Embeds `read_changelog_excerpt`. -/
def readChangelogExcerpt (w : World) (root : String) (maxLines : Nat) : Option String :=
  let p := root ++ "/CHANGELOG.md"
  if ¬ w.pathExists p then none
  else
    match w.fileContent p with
    | none => none
    | some raw =>
      let lines := (pySplitlines raw).map stripTrailingWS
      if lines = [] then none
      else
        let excerpt := pyStrip (joinWith "\n" (lines.take (max 5 maxLines)))
        if excerpt = "" then none else some excerpt

/-! ## Update Controller

The Python bodies wrap their work in `try ... except Exception`.  The
embedded versions reify each possibly-raising step with `M.toSum` and
branch on its outcome, so that the locals visible to the handler (branch,
remote, changed files, steps, restart flags, and the errors accumulated so
far) are exactly those assigned before the raise, as in the source.  Code
placed before the `try` (and the handler's own re-resolution commands)
stays outside: an exception there propagates to the caller. -/

/-- The `except` handler tail of `get_update_status` (lines 520-526):
append `str(exc)`, re-derive the branch and HEAD — both of which may
themselves raise, and then propagate. -/
def statusOnError (w : World) (settings : Settings) (errsSoFar : List String)
    (e : Exc) (release : Option (List (String × String)))
    (changelogExcerpt : Option String) : M UpdateStatus :=
  let tb := pyStrip (pyOr settings.update_branch "")
  M.bind (if tb = "" then getCurrentBranch w else M.pure tb) (fun branch =>
  M.bind (getCommitInfo w "HEAD") (fun current =>
    M.pure
      { branch := branch, current := current, remote := none, has_updates := false,
        commits := [], release := release, changelog_excerpt := changelogExcerpt,
        errors := errsSoFar ++ [excMsg e] }))

/-- Embeds `get_update_status`. -/
def getUpdateStatus (w : World) (settings : Settings) (root : String) : M UpdateStatus :=
  let release := getLatestReleaseNotes w settings
  let changelogExcerpt :=
    if release = none then readChangelogExcerpt w root 80 else none
  M.bind (isGitRepo w) (fun repoOk =>
  if ¬ repoOk then
    M.pure
      { branch := pyOrS (pyStrip (pyOr settings.update_branch "")) "main",
        current := none, remote := none, has_updates := false, commits := [],
        release := release, changelog_excerpt := changelogExcerpt,
        errors := [gitMissingMsg,
                   "Источник данных для /update: локальный git (HEAD и origin/<ветка>)."] }
  else
    M.bind (M.toSum (resolveBranch w settings)) (fun r1 =>
    match r1 with
    | Except.error e => statusOnError w settings [] e release changelogExcerpt
    | Except.ok branch =>
      M.bind (M.toSum (fetchRemote w branch none)) (fun r2 =>
      match r2 with
      | Except.error e => statusOnError w settings [] e release changelogExcerpt
      | Except.ok fetchOk =>
        let errs1 :=
          if ¬ fetchOk then ["Не удалось выполнить git fetch origin " ++ branch ++ "."]
          else []
        M.bind (M.toSum (getCommitInfo w "HEAD")) (fun r3 =>
        match r3 with
        | Except.error e => statusOnError w settings errs1 e release changelogExcerpt
        | Except.ok current =>
          M.bind (M.toSum (getRemoteCommit w branch)) (fun r4 =>
          match r4 with
          | Except.error e => statusOnError w settings errs1 e release changelogExcerpt
          | Except.ok remote =>
            let errs2 := errs1 ++
              (if current = none then ["Не удалось определить текущий commit (HEAD)."]
               else [])
            let errs3 := errs2 ++
              (if remote = none
               then ["Не удалось определить commit origin/" ++ branch ++ "."] else [])
            let hasUpdates :=
              match current, remote with
              | some c, some r => c.full_hash ≠ r.full_hash
              | _, _ => false
            M.bind (M.toSum (if hasUpdates then
                getCommitsBetween w "HEAD" ("origin/" ++ branch) 30
              else M.pure [])) (fun r5 =>
            match r5 with
            | Except.error e => statusOnError w settings errs3 e release changelogExcerpt
            | Except.ok commits =>
              M.pure
                { branch := branch, current := current, remote := remote,
                  has_updates := hasUpdates, commits := commits, release := release,
                  changelog_excerpt := changelogExcerpt, errors := errs3 }))))))

/-- The `except` tail of `run_update` (lines 622-635): log the failure
marker and return a failed result whose `after` is re-resolved (and whose
re-resolution may itself raise and propagate). -/
def updateFailed (w : World) (logPath branch : String)
    (before remote : Option CommitInfo) (changedFiles steps : List String)
    (restartRequired restartPerformed : Bool) (e : Exc) : M UpdateRunResult :=
  M.bind (appendLog logPath ("=== update failed: " ++ excMsg e ++ " ===")) (fun _ =>
  M.bind (getCommitInfo w "HEAD") (fun after =>
    M.pure
      { ok := false, branch := branch, before := before, after := after,
        remote := remote, changed_files := changedFiles, steps := steps,
        restart_required := restartRequired, restart_performed := restartPerformed,
        error := some (excMsg e) }))

/-- The tail of a successful `run_update` (lines 598-621): re-resolve HEAD,
merge the new state keys, save, log the success marker. -/
def finishUpdate (w : World) (settings : Settings) (root logPath branch : String)
    (b r : CommitInfo) (changedFiles steps : List String)
    (restartRequired restartPerformed : Bool) : M UpdateRunResult :=
  M.bind (M.toSum (getCommitInfo w "HEAD")) (fun r8 =>
  match r8 with
  | Except.error e =>
      updateFailed w logPath branch (some b) (some r) changedFiles steps
        restartRequired restartPerformed e
  | Except.ok after =>
      let st := loadState w settings root
      let st2 := dictUpdate st
        [("updated_at", w.now), ("branch", branch), ("previous_head", b.full_hash),
         ("last_known_good", match after with
                             | some a => a.full_hash
                             | none => b.full_hash)]
      M.bind (saveState w settings root st2) (fun _ =>
      M.bind (appendLog logPath "=== update success ===") (fun _ =>
        M.pure
          { ok := true, branch := branch, before := some b, after := after,
            remote := some r, changed_files := changedFiles, steps := steps,
            restart_required := restartRequired, restart_performed := restartPerformed,
            error := none })))

/-- Embeds `run_update`. -/
def runUpdate (w : World) (settings : Settings) (root : String)
    (executeRestart : Bool) : M UpdateRunResult :=
  let logPath := logPathOf settings root
  M.bind (getCommitInfo w "HEAD") (fun before =>
  let tb := pyStrip (pyOr settings.update_branch "")
  M.bind (if tb = "" then getCurrentBranch w else M.pure tb) (fun branch0 =>
  let restartMode := restartModeOf settings
  M.bind (isGitRepo w) (fun repoOk =>
  if ¬ repoOk then
    M.bind (appendLog logPath ("=== update skipped: " ++ gitMissingMsg ++ " ===")) (fun _ =>
      M.pure
        { ok := false, branch := branch0, before := before, after := before,
          remote := none, changed_files := [], steps := [], restart_required := false,
          restart_performed := false, error := some gitMissingMsg })
  else
    M.bind (appendLog logPath "=== update start ===") (fun _ =>
    M.bind (M.toSum (resolveBranch w settings)) (fun r1 =>
    match r1 with
    | Except.error e => updateFailed w logPath branch0 before none [] [] false false e
    | Except.ok branch =>
      M.bind (M.toSum (fetchRemote w branch (some logPath))) (fun r2 =>
      match r2 with
      | Except.error e => updateFailed w logPath branch before none [] [] false false e
      | Except.ok _ =>
        M.bind (M.toSum (getRemoteCommit w branch)) (fun r3 =>
        match r3 with
        | Except.error e => updateFailed w logPath branch before none [] [] false false e
        | Except.ok remote =>
          match before with
          | none =>
              updateFailed w logPath branch before remote [] [] false false
                (Exc.updateError "Cannot resolve current/remote commit")
          | some b =>
            match remote with
            | none =>
                updateFailed w logPath branch before remote [] [] false false
                  (Exc.updateError "Cannot resolve current/remote commit")
            | some r =>
              if b.full_hash = r.full_hash then
                M.bind (appendLog logPath "No updates available") (fun _ =>
                  M.pure
                    { ok := true, branch := branch, before := some b, after := some b,
                      remote := some r, changed_files := [], steps := ["no updates"],
                      restart_required := false, restart_performed := false,
                      error := none })
              else
                M.bind (M.toSum (getChangedFilesBetween w "HEAD" ("origin/" ++ branch)))
                  (fun r4 =>
                match r4 with
                | Except.error e =>
                    updateFailed w logPath branch before remote [] [] false false e
                | Except.ok changedFiles =>
                  M.bind (M.toSum (pullFastForward w branch (some logPath))) (fun r5 =>
                  match r5 with
                  | Except.error e =>
                      updateFailed w logPath branch before remote changedFiles []
                        false false e
                  | Except.ok _ =>
                    M.bind (M.toSum (runPostUpdateSteps w changedFiles root
                        (some logPath))) (fun r6 =>
                    match r6 with
                    | Except.error e =>
                        updateFailed w logPath branch before remote changedFiles []
                          false false e
                    | Except.ok postSteps =>
                      let restartRequired :=
                        ¬ (restartMode = "" ∨ restartMode = "none")
                      if restartRequired ∧ executeRestart then
                        M.bind (M.toSum (restartService w settings root
                            (some logPath))) (fun r7 =>
                        match r7 with
                        | Except.error e =>
                            updateFailed w logPath branch before remote changedFiles
                              postSteps restartRequired false e
                        | Except.ok note =>
                            finishUpdate w settings root logPath branch b r
                              changedFiles (postSteps ++ [note]) restartRequired true)
                      else if restartRequired then
                        finishUpdate w settings root logPath branch b r changedFiles
                          (postSteps ++ ["restart deferred"]) restartRequired false
                      else
                        finishUpdate w settings root logPath branch b r changedFiles
                          postSteps restartRequired false))))))))))

/-- The `except` tail of `rollback` (lines 703-714). -/
def rollbackFailed (w : World) (logPath candidate : String)
    (before : Option CommitInfo) (steps : List String)
    (restartRequired restartPerformed : Bool) (e : Exc) : M RollbackResult :=
  M.bind (appendLog logPath ("=== rollback failed: " ++ excMsg e ++ " ===")) (fun _ =>
  M.bind (getCommitInfo w "HEAD") (fun after =>
    M.pure
      { ok := false, target_commit := some candidate, before := before, after := after,
        steps := steps, restart_required := restartRequired,
        restart_performed := restartPerformed, error := some (excMsg e) }))

/-- The tail of a successful `rollback` (lines 682-702): the state record is
merged and saved only when the post-reset HEAD resolved. -/
def rollbackFinish (w : World) (settings : Settings) (root logPath candidate : String)
    (before : Option CommitInfo) (steps : List String)
    (restartRequired restartPerformed : Bool) (st : List (String × String)) :
    M RollbackResult :=
  M.bind (M.toSum (getCommitInfo w "HEAD")) (fun r8 =>
  match r8 with
  | Except.error e =>
      rollbackFailed w logPath candidate before steps restartRequired restartPerformed e
  | Except.ok after =>
    M.bind (match after with
            | some a =>
              saveState w settings root (dictUpdate st
                [("rolled_back_at", w.now), ("rolled_back_to", a.full_hash),
                 ("last_known_good", a.full_hash)])
            | none => M.pure PUnit.unit) (fun _ =>
    M.bind (appendLog logPath "=== rollback success ===") (fun _ =>
      M.pure
        { ok := true, target_commit := some candidate, before := before, after := after,
          steps := steps, restart_required := restartRequired,
          restart_performed := restartPerformed, error := none })))

/-- The target resolution of `rollback` (line 660): explicit argument,
else stored `previous_head`, else stored `last_known_good`, each stripped,
first non-empty wins. -/
def rollbackCandidate (w : World) (settings : Settings) (root : String)
    (targetCommit : Option String) : String :=
  let st := loadState w settings root
  pyOrS (pyOrS (pyStrip (pyOr targetCommit ""))
               (pyStrip (stateGetStr st "previous_head")))
        (pyStrip (stateGetStr st "last_known_good"))

/-- Embeds `rollback`. -/
def rollback (w : World) (settings : Settings) (root : String)
    (targetCommit : Option String) (executeRestart : Bool) : M RollbackResult :=
  let logPath := logPathOf settings root
  M.bind (getCommitInfo w "HEAD") (fun before =>
  let restartMode := restartModeOf settings
  let restartRequired := ¬ (restartMode = "" ∨ restartMode = "none")
  M.bind (isGitRepo w) (fun repoOk =>
  if ¬ repoOk then
    M.bind (appendLog logPath ("=== rollback skipped: " ++ gitMissingMsg ++ " ===")) (fun _ =>
      M.pure
        { ok := false, target_commit := none, before := before, after := before,
          steps := [], restart_required := false, restart_performed := false,
          error := some gitMissingMsg })
  else
    let st := loadState w settings root
    let candidate := rollbackCandidate w settings root targetCommit
    if candidate = "" then
      M.pure
        { ok := false, target_commit := none, before := before, after := before,
          steps := [], restart_required := false, restart_performed := false,
          error := some "Rollback commit is not known" }
    else
      M.bind (appendLog logPath ("=== rollback start -> " ++ candidate ++ " ===")) (fun _ =>
      M.bind (M.toSum (runCommand w ["git", "reset", "--hard", candidate]
          (some logPath) true 300)) (fun r1 =>
      match r1 with
      | Except.error e =>
          rollbackFailed w logPath candidate before [] restartRequired false e
      | Except.ok _ =>
        let steps1 := ["git reset --hard " ++ candidate]
        if restartRequired ∧ executeRestart then
          M.bind (M.toSum (restartService w settings root (some logPath))) (fun r2 =>
          match r2 with
          | Except.error e =>
              rollbackFailed w logPath candidate before steps1 restartRequired false e
          | Except.ok note =>
              rollbackFinish w settings root logPath candidate before
                (steps1 ++ [note]) restartRequired true st)
        else if restartRequired then
          rollbackFinish w settings root logPath candidate before
            (steps1 ++ ["restart deferred"]) restartRequired false st
        else
          rollbackFinish w settings root logPath candidate before steps1
            restartRequired false st))))

/-! ## Observations on effect traces -/

/-- The three lockfile-driven node installs of `_install_node_if_needed`. -/
def isNodeInstallCmd (args : List String) : Bool :=
  args == ["pnpm", "install", "--frozen-lockfile"] || args == ["npm", "ci"] ||
  args == ["yarn", "install", "--frozen-lockfile"]

/-- The two migration commands of `_run_migrations_if_needed`. -/
def isMigrationCmd (args : List String) : Bool :=
  listEnds ["-m", "alembic", "upgrade", "head"] args ||
  listEnds ["manage.py", "migrate", "--noinput"] args

/-- The dependency install of `_install_requirements_if_needed`. -/
def isPipInstallCmd (args : List String) : Bool :=
  listEnds ["-m", "pip", "install", "-r", "requirements.txt"] args

/-- Commands that mutate the working tree or the installed environment. -/
def mutatingCmd (args : List String) : Bool :=
  listStarts ["git", "pull"] args || listStarts ["git", "reset"] args ||
  isNodeInstallCmd args || isPipInstallCmd args || isMigrationCmd args

/-- An effect that mutates persistent state: a file write or rename, or a
mutating external command. -/
def Effect.isMutation : Effect → Bool
  | Effect.wroteFile _ _ => true
  | Effect.renamedFile _ _ => true
  | Effect.ranCommand args => mutatingCmd args
  | _ => false

/-- Does the trace contain a rename (the atomic-replace step)? -/
def hasRenameEffect (tr : List Effect) : Bool :=
  tr.any (fun e => match e with | Effect.renamedFile _ _ => true | _ => false)

/-- A file-system write: a direct write or a rename onto a path. -/
def Effect.isWrite : Effect → Bool
  | Effect.wroteFile _ _ => true
  | Effect.renamedFile _ _ => true
  | _ => false

/-- Does the trace write (directly or by rename) to the given path? -/
def writesToPath (p : String) (tr : List Effect) : Bool :=
  tr.any (fun e =>
    match e with
    | Effect.wroteFile q _ => q == p
    | Effect.renamedFile _ q => q == p
    | _ => false)

/-- Lift a predicate on command lines to one on effects. -/
def cmdPred (g : List String → Bool) : Effect → Bool
  | Effect.ranCommand args => g args
  | _ => false

/-- Number of node dependency installs executed. -/
def countNodeInstalls (tr : List Effect) : Nat :=
  tr.countP (cmdPred isNodeInstallCmd)

/-- Number of migration commands executed. -/
def countMigrationRuns (tr : List Effect) : Nat :=
  tr.countP (cmdPred isMigrationCmd)

/-- Number of executions of exactly the given command line. -/
def countCmd (cmd : List String) (tr : List Effect) : Nat :=
  tr.countP (cmdPred (fun args => args == cmd))

/-- Number of manage.py migration runs (whatever interpreter is used). -/
def countManageMigrate (tr : List Effect) : Nat :=
  tr.countP (cmdPred (listEnds ["manage.py", "migrate", "--noinput"]))

/-- Did any version-control command run? -/
def ranGitCommand (tr : List Effect) : Bool :=
  tr.any (fun e =>
    match e with
    | Effect.ranCommand args => listStarts ["git"] args
    | _ => false)

/-- Does the changed-file set hit any post-update marker path? -/
def hasPostStepMarker (changedFiles : List String) : Bool :=
  changedFiles.contains "requirements.txt" || changedFiles.contains "pnpm-lock.yaml" ||
  changedFiles.contains "package-lock.json" || changedFiles.contains "yarn.lock" ||
  mayNeedMigrations changedFiles

/-! ## Concrete worlds for witnesses and counterexamples -/

/-- A commit metadata line as `git show` prints it under `commitFormat`. -/
def sampleCommitLine : String :=
  "aaa111\x1faaa\x1fAlice\x1f2024-01-01T10:00:00+00:00\x1fmsg one"

/-- A command oracle where every git query succeeds and HEAD equals
origin/main. -/
def runsAllGood (args : List String) : RunOutcome :=
  if args = ["git", "rev-parse", "--is-inside-work-tree"] then
    RunOutcome.completed ⟨0, "true\n", ""⟩
  else if args = ["git", "show", "-s", commitFormat, "HEAD"] then
    RunOutcome.completed ⟨0, sampleCommitLine ++ "\n", ""⟩
  else if args = ["git", "rev-parse", "--abbrev-ref", "HEAD"] then
    RunOutcome.completed ⟨0, "main\n", ""⟩
  else if args = ["git", "rev-parse", "--verify", "origin/main"] then
    RunOutcome.completed ⟨0, "", ""⟩
  else if args = ["git", "fetch", "--prune", "origin", "main"] then
    RunOutcome.completed ⟨0, "", ""⟩
  else if args = ["git", "show", "-s", commitFormat, "origin/main"] then
    RunOutcome.completed ⟨0, sampleCommitLine ++ "\n", ""⟩
  else RunOutcome.completed ⟨0, "", ""⟩

/-- Fill the non-command oracle fields with inert defaults. -/
def baseWorld (runf : List String → RunOutcome) : World where
  run := runf
  pathExists := fun _ => false
  fileContent := fun _ => none
  which := fun _ => false
  latestRelease := HttpResult.raised
  parseJsonDict := fun _ => none
  dumpJson := fun _ => "serialized-state"
  shlexSplit := fun _ => []
  now := "2024-01-02T00:00:00+00:00"

/-- Every command succeeds; HEAD equals origin/main. -/
def wGood : World := baseWorld runsAllGood

/-- Every command invocation times out. -/
def wTimedOut : World := baseWorld (fun _ => RunOutcome.timedOut)

/-- Commit resolution fails (`git show` exits non-zero); everything else
succeeds. -/
def wNoHead : World := baseWorld (fun args =>
  if listStarts ["git", "show"] args then RunOutcome.completed ⟨1, "", "fatal"⟩
  else runsAllGood args)

/-- Plain configuration pinning the branch to main. -/
def sMain : Settings := { update_branch := some "main" }

/-- A command oracle where the current branch is "feature-x", origin/main
exists remotely, and origin/master and origin/feature-x do not. -/
def runsFeature (args : List String) : RunOutcome :=
  if args = ["git", "rev-parse", "--abbrev-ref", "HEAD"] then
    RunOutcome.completed ⟨0, "feature-x\n", ""⟩
  else if args = ["git", "rev-parse", "--verify", "origin/main"] then
    RunOutcome.completed ⟨0, "", ""⟩
  else if args = ["git", "rev-parse", "--verify", "origin/master"] then
    RunOutcome.completed ⟨1, "", "fatal"⟩
  else if args = ["git", "rev-parse", "--verify", "origin/feature-x"] then
    RunOutcome.completed ⟨1, "", "fatal"⟩
  else runsAllGood args

/-- World for the branch-resolution scenario. -/
def wFeature : World := baseWorld runsFeature

/-! ## C1 — State Store save: temp file + rename? -/

/-- C1 (counterexample): at a concrete configuration and payload,
`_save_state` performs a single direct write of the serialised record to
the target path; its effect trace contains no temporary-file rename at
all, refuting the claimed temp-file+rename write path. -/
theorem c1_save_not_atomic_counterexample :
    M.exec (saveState wGood sMain "/srv/app" [("previous_head", "abc")]) =
      (Except.ok PUnit.unit,
       [Effect.madeDir "/srv/app/data",
        Effect.wroteFile "/srv/app/data/update_state.json" "serialized-state"]) ∧
    hasRenameEffect
      (M.exec (saveState wGood sMain "/srv/app" [("previous_head", "abc")])).2 = false := by
  constructor
  · rfl
  · rfl

/-- C1 (amended): for every configuration, repository root and payload,
`_save_state` ensures the parent directory and then writes the serialised
record directly to the target path in one `write_text`; no temporary file
and no rename are involved, so the write is not performed atomically via
temp file + rename. -/
theorem c1_save_writes_directly (w : World) (settings : Settings) (root : String)
    (payload : List (String × String)) :
    M.exec (saveState w settings root payload) =
      (Except.ok PUnit.unit,
       [Effect.madeDir (dirname (statePathOf settings root)),
        Effect.wroteFile (statePathOf settings root) (w.dumpJson payload)]) ∧
    hasRenameEffect (M.exec (saveState w settings root payload)).2 = false := by
  constructor
  · simp [saveState, M.exec, M.bind, M.emit]
  · simp [saveState, M.exec, M.bind, M.emit, hasRenameEffect]

/-! ## C8 — unrecognized restart modes -/

/-- A configuration whose restart mode is a single space. -/
def sSpaceMode : Settings := { service_restart_mode := some " " }

/-- A configuration whose restart mode is the unrecognized word "foo". -/
def sFooMode : Settings := { service_restart_mode := some "foo" }

/-- C8 (counterexample): the configured restart mode " " (one space) is
none of the recognized mode names (nor the empty string), yet
`restart_service` returns the success value "restart skipped" without
raising and without doing anything — a silent no-op for an unrecognized
configured mode, refuting the claim that every mode outside the recognized
set raises a configuration error. -/
theorem c8_whitespace_mode_counterexample :
    M.exec (restartService wGood sSpaceMode "/srv/app" none) =
      (Except.ok "restart skipped", []) ∧
    (" " ≠ "none" ∧ " " ≠ "systemd" ∧ " " ≠ "docker_compose" ∧
     " " ≠ "pm2" ∧ " " ≠ "custom" ∧ " " ≠ "") := by
  exact ⟨rfl, by decide⟩

/-- C8 (amended): for every configured restart mode whose normalisation
(strip + lowercase, with unset/empty defaulting to "systemd") is outside
the set recognised by the dispatcher — the empty string, "none", "systemd",
"docker_compose", "pm2", "custom" — `restart_service` raises
`UpdateError "Unknown restart mode: <mode>"` having run no command;
whitespace-only configured modes, however, normalise to the empty string
and are treated as "none" (a silent "restart skipped"). -/
theorem c8_unknown_mode_raises (w : World) (settings : Settings) (root : String)
    (logPath : Option String)
    (h : restartModeOf settings ∉
      ["", "none", "systemd", "docker_compose", "pm2", "custom"]) :
    M.exec (restartService w settings root logPath) =
      (Except.error (Exc.updateError ("Unknown restart mode: " ++ restartModeOf settings)),
       []) := by
  simp only [List.mem_cons, List.mem_singleton, not_or] at h
  obtain ⟨h1, h2, h3, h4, h5, h6, -⟩ := h
  simp [restartService, M.exec, M.throw, h1, h2, h3, h4, h5, h6]

/-- C8 (witness for the amended theorem): the mode "foo" is outside the
recognised set and makes `restart_service` raise. -/
theorem c8_unknown_mode_raises_witness :
    restartModeOf sFooMode ∉ ["", "none", "systemd", "docker_compose", "pm2", "custom"] ∧
    M.exec (restartService wGood sFooMode "/srv/app" none) =
      (Except.error (Exc.updateError ("Unknown restart mode: " ++ restartModeOf sFooMode)),
       []) :=
  ⟨by decide, c8_unknown_mode_raises wGood sFooMode "/srv/app" none (by decide)⟩

/-! ## Counting effects compositionally

`M.countBound x f n` says that running `x` adds at most `n` effects
satisfying `f` to whatever trace it starts from.  The combinators below
mirror the monad operations, making "this code path can run at most one
such command" proofs compositional. -/

/-- Running `x` adds at most `n` effects satisfying `f`. -/
def M.countBound {α : Type} (x : M α) (f : Effect → Bool) (n : Nat) : Prop :=
  ∀ tr, ((x tr).2).countP f ≤ tr.countP f + n

theorem countBound_pure {α : Type} (a : α) (f : Effect → Bool) :
    M.countBound (M.pure a) f 0 := by
  intro tr; simp [M.pure]

theorem countBound_throw {α : Type} (e : Exc) (f : Effect → Bool) :
    M.countBound (M.throw e : M α) f 0 := by
  intro tr; simp [M.throw]

theorem countBound_emit (e : Effect) (f : Effect → Bool) :
    M.countBound (M.emit e) f (if f e then 1 else 0) := by
  intro tr
  simp only [M.emit, List.countP_append]
  split <;> simp_all [List.countP_cons]

theorem countBound_bind {α β : Type} {x : M α} {g : α → M β} {f : Effect → Bool}
    {n m : Nat} (hx : M.countBound x f n) (hg : ∀ a, M.countBound (g a) f m) :
    M.countBound (M.bind x g) f (n + m) := by
  intro tr
  have hx2 := hx tr
  unfold M.bind
  rcases hxtr : x tr with ⟨r, tr2⟩
  rw [hxtr] at hx2
  cases r with
  | ok a =>
    have := hg a tr2
    simp only at this hx2 ⊢
    omega
  | error e =>
    simp only at hx2 ⊢
    omega

theorem countBound_toSum {α : Type} {x : M α} {f : Effect → Bool} {n : Nat}
    (hx : M.countBound x f n) : M.countBound (M.toSum x) f n := by
  intro tr
  have hx2 := hx tr
  unfold M.toSum
  rcases hxtr : x tr with ⟨r, tr2⟩
  rw [hxtr] at hx2
  cases r <;> simpa using hx2

theorem countBound_mono {α : Type} {x : M α} {f : Effect → Bool} {n m : Nat}
    (hnm : n ≤ m) (hx : M.countBound x f n) : M.countBound x f m := by
  intro tr
  have := hx tr
  omega

theorem countBound_appendLog (lp txt : String) (g : List String → Bool) :
    M.countBound (appendLog lp txt) (cmdPred g) 0 := by
  intro tr
  simp [appendLog, M.bind, M.emit, List.countP_append, cmdPred]

theorem countBound_ite {α : Type} {c : Prop} [Decidable c] {x y : M α}
    {f : Effect → Bool} {n : Nat} (hx : M.countBound x f n)
    (hy : M.countBound y f n) : M.countBound (if c then x else y) f n := by
  split <;> assumption

/-- A command invocation adds at most one command effect, with the executed
line being exactly `args`. -/
theorem countBound_runCommand (w : World) (args : List String)
    (lp : Option String) (check : Bool) (t : Nat) (g : List String → Bool) :
    M.countBound (runCommand w args lp check t) (cmdPred g)
      (if g args then 1 else 0) := by
  have hlog : ∀ (o : Option String) (txt : String),
      M.countBound
        (match o with
         | some lpv => appendLog lpv txt
         | none => M.pure PUnit.unit) (cmdPred g) 0 := by
    intro o txt
    cases o
    · exact countBound_pure _ _
    · exact countBound_appendLog _ _ _
  have hout : ∀ (o : Option String) (c : CompletedProcess),
      M.countBound
        (match o with
         | some lpv =>
           M.bind (if c.stdout ≠ "" then appendLog lpv (pyStrip c.stdout)
                   else M.pure PUnit.unit) (fun _ =>
             if c.stderr ≠ "" then appendLog lpv (pyStrip c.stderr)
             else M.pure PUnit.unit)
         | none => M.pure PUnit.unit) (cmdPred g) 0 := by
    intro o c
    cases o
    · exact countBound_pure _ _
    · exact countBound_bind
        (countBound_ite (countBound_appendLog _ _ _) (countBound_pure _ _))
        (fun _ => countBound_ite (countBound_appendLog _ _ _) (countBound_pure _ _))
  unfold runCommand
  refine countBound_mono (le_of_eq (Nat.zero_add _))
    (countBound_bind (hlog lp _) (fun _ => ?_))
  rcases hw : w.run args with c | _ | _ <;> dsimp only
  · refine countBound_mono ?_
      (countBound_bind (countBound_emit _ _) (fun _ =>
        countBound_bind (hout lp c) (fun _ =>
          countBound_ite (countBound_throw _ _) (countBound_pure _ _))))
    simp [cmdPred]
  · refine countBound_mono ?_
      (countBound_bind (countBound_emit _ _) (fun _ =>
        countBound_bind (hlog lp _) (fun _ => countBound_throw _ _)))
    simp [cmdPred]
  · exact countBound_mono (Nat.zero_le _) (countBound_throw _ _)

theorem countBound_runCommand_zero (w : World) (args : List String)
    (lp : Option String) (check : Bool) (t : Nat) {g : List String → Bool}
    (h : g args = false) :
    M.countBound (runCommand w args lp check t) (cmdPred g) 0 := by
  have := countBound_runCommand w args lp check t g
  rw [h] at this
  simpa using this

/-! Command-line classification facts used by the step-selector proofs. -/

theorem pip_cmd_not_node (w : World) (root : String) :
    isNodeInstallCmd
      (venvPython w root ++ ["-m", "pip", "install", "-r", "requirements.txt"]) = false := by
  unfold venvPython
  split <;> (try split) <;> simp [isNodeInstallCmd]

theorem pip_cmd_not_mig (w : World) (root : String) :
    isMigrationCmd
      (venvPython w root ++ ["-m", "pip", "install", "-r", "requirements.txt"]) = false := by
  unfold venvPython
  split <;> (try split) <;> simp [isMigrationCmd, listEnds, listStarts]

theorem alembic_cmd_not_node (w : World) (root : String) :
    isNodeInstallCmd (venvPython w root ++ ["-m", "alembic", "upgrade", "head"]) = false := by
  unfold venvPython
  split <;> (try split) <;> simp [isNodeInstallCmd]

theorem manage_cmd_not_node (w : World) (root : String) :
    isNodeInstallCmd (venvPython w root ++ ["manage.py", "migrate", "--noinput"]) = false := by
  unfold venvPython
  split <;> (try split) <;> simp [isNodeInstallCmd]

theorem alembic_cmd_not_manage (w : World) (root : String) :
    listEnds ["manage.py", "migrate", "--noinput"]
      (venvPython w root ++ ["-m", "alembic", "upgrade", "head"]) = false := by
  unfold venvPython
  split <;> (try split) <;> simp [listEnds, listStarts]

theorem pip_cmd_not_manage (w : World) (root : String) :
    listEnds ["manage.py", "migrate", "--noinput"]
      (venvPython w root ++ ["-m", "pip", "install", "-r", "requirements.txt"]) = false := by
  unfold venvPython
  split <;> (try split) <;> simp [listEnds, listStarts]

/-! Per-helper counting bounds. -/

theorem instReq_node_zero (w : World) (ch : List String) (root : String)
    (lp : Option String) :
    M.countBound (installRequirementsIfNeeded w ch root lp) (cmdPred isNodeInstallCmd) 0 := by
  unfold installRequirementsIfNeeded
  split
  · exact countBound_pure _ _
  · split
    · exact countBound_pure _ _
    · have h := countBound_bind
        (countBound_runCommand_zero w _ lp true 300 (pip_cmd_not_node w root))
        (fun _ => countBound_pure true (cmdPred isNodeInstallCmd))
      simpa using h

theorem instReq_mig_zero (w : World) (ch : List String) (root : String)
    (lp : Option String) :
    M.countBound (installRequirementsIfNeeded w ch root lp) (cmdPred isMigrationCmd) 0 := by
  unfold installRequirementsIfNeeded
  split
  · exact countBound_pure _ _
  · split
    · exact countBound_pure _ _
    · have h := countBound_bind
        (countBound_runCommand_zero w _ lp true 300 (pip_cmd_not_mig w root))
        (fun _ => countBound_pure true (cmdPred isMigrationCmd))
      simpa using h

theorem instNode_node_one (w : World) (ch : List String) (root : String)
    (lp : Option String) :
    M.countBound (installNodeIfNeeded w ch root lp) (cmdPred isNodeInstallCmd) 1 := by
  unfold installNodeIfNeeded
  split
  · have h := countBound_bind
      (countBound_runCommand w ["pnpm", "install", "--frozen-lockfile"] lp true 300
        isNodeInstallCmd)
      (fun _ => countBound_pure true (cmdPred isNodeInstallCmd))
    simp only [isNodeInstallCmd] at h
    simpa using h
  · split
    · have h := countBound_bind
        (countBound_runCommand w ["npm", "ci"] lp true 300 isNodeInstallCmd)
        (fun _ => countBound_pure true (cmdPred isNodeInstallCmd))
      simp only [isNodeInstallCmd] at h
      simpa using h
    · split
      · have h := countBound_bind
          (countBound_runCommand w ["yarn", "install", "--frozen-lockfile"] lp true 300
            isNodeInstallCmd)
          (fun _ => countBound_pure true (cmdPred isNodeInstallCmd))
        simp only [isNodeInstallCmd] at h
        simpa using h
      · exact countBound_mono (Nat.zero_le 1) (countBound_pure _ _)

theorem instNode_mig_zero (w : World) (ch : List String) (root : String)
    (lp : Option String) :
    M.countBound (installNodeIfNeeded w ch root lp) (cmdPred isMigrationCmd) 0 := by
  unfold installNodeIfNeeded
  split
  · have h := countBound_bind
      (countBound_runCommand_zero w _ lp true 300
        (show isMigrationCmd ["pnpm", "install", "--frozen-lockfile"] = false by decide))
      (fun _ => countBound_pure true (cmdPred isMigrationCmd))
    simpa using h
  · split
    · have h := countBound_bind
        (countBound_runCommand_zero w _ lp true 300
          (show isMigrationCmd ["npm", "ci"] = false by decide))
        (fun _ => countBound_pure true (cmdPred isMigrationCmd))
      simpa using h
    · split
      · have h := countBound_bind
          (countBound_runCommand_zero w _ lp true 300
            (show isMigrationCmd ["yarn", "install", "--frozen-lockfile"] = false by decide))
          (fun _ => countBound_pure true (cmdPred isMigrationCmd))
        simpa using h
      · exact countBound_pure _ _

theorem mig_node_zero (w : World) (ch : List String) (root : String)
    (lp : Option String) :
    M.countBound (runMigrationsIfNeeded w ch root lp) (cmdPred isNodeInstallCmd) 0 := by
  unfold runMigrationsIfNeeded
  split
  · exact countBound_pure _ _
  · split
    · have h := countBound_bind
        (countBound_runCommand_zero w _ lp true 300 (alembic_cmd_not_node w root))
        (fun _ => countBound_pure true (cmdPred isNodeInstallCmd))
      simpa using h
    · split
      · have h := countBound_bind
          (countBound_runCommand_zero w _ lp true 300 (manage_cmd_not_node w root))
          (fun _ => countBound_pure true (cmdPred isNodeInstallCmd))
        simpa using h
      · exact countBound_pure _ _

theorem mig_mig_one (w : World) (ch : List String) (root : String)
    (lp : Option String) :
    M.countBound (runMigrationsIfNeeded w ch root lp) (cmdPred isMigrationCmd) 1 := by
  unfold runMigrationsIfNeeded
  split
  · exact countBound_mono (Nat.zero_le 1) (countBound_pure _ _)
  · split
    · have h := countBound_bind
        (countBound_runCommand w (venvPython w root ++ ["-m", "alembic", "upgrade", "head"])
          lp true 300 isMigrationCmd)
        (fun _ => countBound_pure true (cmdPred isMigrationCmd))
      exact countBound_mono (by split <;> omega) h
    · split
      · have h := countBound_bind
          (countBound_runCommand w (venvPython w root ++ ["manage.py", "migrate", "--noinput"])
            lp true 300 isMigrationCmd)
          (fun _ => countBound_pure true (cmdPred isMigrationCmd))
        exact countBound_mono (by split <;> omega) h
      · exact countBound_mono (Nat.zero_le 1) (countBound_pure _ _)

/-- Bound on the executed trace (which starts empty). -/
theorem exec_countP_le {α : Type} {x : M α} {f : Effect → Bool} {n : Nat}
    (h : M.countBound x f n) : ((M.exec x).2).countP f ≤ n := by
  have h0 := h []
  simpa [M.exec] using h0

/-- Since `_venv_python` always yields a one-element command head, appending a
tail gives a list whose shape is independent of the interpreter path. -/
theorem venv_cons_ne (w : World) (root : String) (x : String)
    (rest cmd : List String) (h : ∀ p, ((p :: x :: rest) == cmd) = false) :
    ((venvPython w root ++ (x :: rest)) == cmd) = false := by
  unfold venvPython
  split
  · exact h _
  · split
    · exact h _
    · exact h _

theorem instReq_cmd_zero (w : World) (ch : List String) (root : String)
    (lp : Option String) (cmd : List String)
    (h : ∀ p, ((p :: "-m" :: ["pip", "install", "-r", "requirements.txt"]) == cmd) = false) :
    M.countBound (installRequirementsIfNeeded w ch root lp)
      (cmdPred (fun args => args == cmd)) 0 := by
  unfold installRequirementsIfNeeded
  split
  · exact countBound_pure _ _
  · split
    · exact countBound_pure _ _
    · have hb := countBound_bind
        (countBound_runCommand_zero w
          (venvPython w root ++ ["-m", "pip", "install", "-r", "requirements.txt"])
          lp true 300 (venv_cons_ne w root "-m" _ cmd h))
        (fun _ => countBound_pure true (cmdPred (fun args => args == cmd)))
      simpa using hb

theorem mig_cmd_zero (w : World) (ch : List String) (root : String)
    (lp : Option String) (cmd : List String)
    (h1 : ∀ p, ((p :: "-m" :: ["alembic", "upgrade", "head"]) == cmd) = false)
    (h2 : ∀ p, ((p :: "manage.py" :: ["migrate", "--noinput"]) == cmd) = false) :
    M.countBound (runMigrationsIfNeeded w ch root lp)
      (cmdPred (fun args => args == cmd)) 0 := by
  unfold runMigrationsIfNeeded
  split
  · exact countBound_pure _ _
  · split
    · have hb := countBound_bind
        (countBound_runCommand_zero w
          (venvPython w root ++ ["-m", "alembic", "upgrade", "head"])
          lp true 300 (venv_cons_ne w root "-m" _ cmd h1))
        (fun _ => countBound_pure true (cmdPred (fun args => args == cmd)))
      simpa using hb
    · split
      · have hb := countBound_bind
          (countBound_runCommand_zero w
            (venvPython w root ++ ["manage.py", "migrate", "--noinput"])
            lp true 300 (venv_cons_ne w root "manage.py" _ cmd h2))
          (fun _ => countBound_pure true (cmdPred (fun args => args == cmd)))
        simpa using hb
      · exact countBound_pure _ _

theorem instNode_manage_zero (w : World) (ch : List String) (root : String)
    (lp : Option String) :
    M.countBound (installNodeIfNeeded w ch root lp)
      (cmdPred (listEnds ["manage.py", "migrate", "--noinput"])) 0 := by
  unfold installNodeIfNeeded
  split
  · have hb := countBound_bind
      (countBound_runCommand_zero w ["pnpm", "install", "--frozen-lockfile"] lp true 300
        (show listEnds ["manage.py", "migrate", "--noinput"]
          ["pnpm", "install", "--frozen-lockfile"] = false by decide))
      (fun _ => countBound_pure true _)
    simpa using hb
  · split
    · have hb := countBound_bind
        (countBound_runCommand_zero w ["npm", "ci"] lp true 300
          (show listEnds ["manage.py", "migrate", "--noinput"] ["npm", "ci"] = false
            by decide))
        (fun _ => countBound_pure true _)
      simpa using hb
    · split
      · have hb := countBound_bind
          (countBound_runCommand_zero w ["yarn", "install", "--frozen-lockfile"] lp true 300
            (show listEnds ["manage.py", "migrate", "--noinput"]
              ["yarn", "install", "--frozen-lockfile"] = false by decide))
          (fun _ => countBound_pure true _)
        simpa using hb
      · exact countBound_pure _ _

theorem instReq_manage_zero (w : World) (ch : List String) (root : String)
    (lp : Option String) :
    M.countBound (installRequirementsIfNeeded w ch root lp)
      (cmdPred (listEnds ["manage.py", "migrate", "--noinput"])) 0 := by
  unfold installRequirementsIfNeeded
  split
  · exact countBound_pure _ _
  · split
    · exact countBound_pure _ _
    · have hb := countBound_bind
        (countBound_runCommand_zero w
          (venvPython w root ++ ["-m", "pip", "install", "-r", "requirements.txt"])
          lp true 300 (pip_cmd_not_manage w root))
        (fun _ => countBound_pure true _)
      simpa using hb

/-! ## C6 — post-update step selector -/

/-- C6: for every changed-file set and every environment, the post-update
step selector executes at most one node dependency install and at most one
migration command; when the pnpm lockfile branch applies, neither `npm ci`
nor the yarn install can run (the pnpm > npm > yarn priority stops at the
first match); when the alembic marker file exists, the manage.py migration
cannot run (alembic has priority); and when no marker path matches, the
selector performs nothing at all and returns the empty step list. -/
theorem c6_step_selector (w : World) (changedFiles : List String) (root : String)
    (lp : Option String) :
    countNodeInstalls (M.exec (runPostUpdateSteps w changedFiles root lp)).2 ≤ 1 ∧
    countMigrationRuns (M.exec (runPostUpdateSteps w changedFiles root lp)).2 ≤ 1 ∧
    ((changedFiles.contains "pnpm-lock.yaml" && w.pathExists (root ++ "/pnpm-lock.yaml")
        && w.which "pnpm") = true →
      countCmd ["npm", "ci"] (M.exec (runPostUpdateSteps w changedFiles root lp)).2 = 0 ∧
      countCmd ["yarn", "install", "--frozen-lockfile"]
        (M.exec (runPostUpdateSteps w changedFiles root lp)).2 = 0) ∧
    (mayNeedMigrations changedFiles = true → w.pathExists (root ++ "/alembic.ini") = true →
      countManageMigrate (M.exec (runPostUpdateSteps w changedFiles root lp)).2 = 0) ∧
    (hasPostStepMarker changedFiles = false →
      M.exec (runPostUpdateSteps w changedFiles root lp) = (Except.ok [], [])) := by
  refine ⟨?node, ?mig, ?pnpm, ?alembic, ?noop⟩
  case node =>
    have hb : M.countBound (runPostUpdateSteps w changedFiles root lp)
        (cmdPred isNodeInstallCmd) 1 := by
      unfold runPostUpdateSteps
      refine countBound_mono (by omega)
        (countBound_bind (instReq_node_zero w changedFiles root lp) (fun _ =>
          countBound_bind (instNode_node_one w changedFiles root lp) (fun _ =>
            countBound_bind (mig_node_zero w changedFiles root lp) (fun _ =>
              countBound_pure _ _))))
    exact exec_countP_le hb
  case mig =>
    have hb : M.countBound (runPostUpdateSteps w changedFiles root lp)
        (cmdPred isMigrationCmd) 1 := by
      unfold runPostUpdateSteps
      refine countBound_mono (by omega)
        (countBound_bind (instReq_mig_zero w changedFiles root lp) (fun _ =>
          countBound_bind (instNode_mig_zero w changedFiles root lp) (fun _ =>
            countBound_bind (mig_mig_one w changedFiles root lp) (fun _ =>
              countBound_pure _ _))))
    exact exec_countP_le hb
  case pnpm =>
    intro hp
    have hNodeBranch : ∀ cmd : List String,
        (["pnpm", "install", "--frozen-lockfile"] == cmd) = false →
        M.countBound (installNodeIfNeeded w changedFiles root lp)
          (cmdPred (fun args => args == cmd)) 0 := by
      intro cmd hne
      unfold installNodeIfNeeded
      simp only [hp, if_true]
      have hb := countBound_bind
        (countBound_runCommand_zero w ["pnpm", "install", "--frozen-lockfile"] lp true 300 hne)
        (fun _ => countBound_pure true (cmdPred (fun args => args == cmd)))
      simpa using hb
    constructor
    · have hb : M.countBound (runPostUpdateSteps w changedFiles root lp)
          (cmdPred (fun args => args == ["npm", "ci"])) 0 := by
        unfold runPostUpdateSteps
        refine countBound_mono (by omega)
          (countBound_bind (instReq_cmd_zero w changedFiles root lp _ (by intro p; simp))
            (fun _ => countBound_bind (hNodeBranch _ (by decide)) (fun _ =>
              countBound_bind
                (mig_cmd_zero w changedFiles root lp _ (by intro p; simp) (by intro p; simp))
                (fun _ => countBound_pure _ _))))
      exact Nat.le_zero.mp (exec_countP_le hb)
    · have hb : M.countBound (runPostUpdateSteps w changedFiles root lp)
          (cmdPred (fun args => args == ["yarn", "install", "--frozen-lockfile"])) 0 := by
        unfold runPostUpdateSteps
        refine countBound_mono (by omega)
          (countBound_bind (instReq_cmd_zero w changedFiles root lp _ (by intro p; simp))
            (fun _ => countBound_bind (hNodeBranch _ (by decide)) (fun _ =>
              countBound_bind
                (mig_cmd_zero w changedFiles root lp _ (by intro p; simp) (by intro p; simp))
                (fun _ => countBound_pure _ _))))
      exact Nat.le_zero.mp (exec_countP_le hb)
  case alembic =>
    intro hm hal
    have hMigBranch : M.countBound (runMigrationsIfNeeded w changedFiles root lp)
        (cmdPred (listEnds ["manage.py", "migrate", "--noinput"])) 0 := by
      unfold runMigrationsIfNeeded
      simp only [hm, hal, not_true, if_false, if_true]
      have hb := countBound_bind
        (countBound_runCommand_zero w
          (venvPython w root ++ ["-m", "alembic", "upgrade", "head"]) lp true 300
          (alembic_cmd_not_manage w root))
        (fun _ => countBound_pure true _)
      simpa using hb
    have hb : M.countBound (runPostUpdateSteps w changedFiles root lp)
        (cmdPred (listEnds ["manage.py", "migrate", "--noinput"])) 0 := by
      unfold runPostUpdateSteps
      refine countBound_mono (by omega)
        (countBound_bind (instReq_manage_zero w changedFiles root lp) (fun _ =>
          countBound_bind (instNode_manage_zero w changedFiles root lp) (fun _ =>
            countBound_bind hMigBranch (fun _ => countBound_pure _ _))))
    exact Nat.le_zero.mp (exec_countP_le hb)
  case noop =>
    intro hnm
    simp only [hasPostStepMarker, Bool.or_eq_false_iff] at hnm
    obtain ⟨⟨⟨⟨h1, h2⟩, h3⟩, h4⟩, h5⟩ := hnm
    have m1 : "requirements.txt" ∉ changedFiles := by simpa using h1
    have m2 : "pnpm-lock.yaml" ∉ changedFiles := by simpa using h2
    have m3 : "package-lock.json" ∉ changedFiles := by simpa using h3
    have m4 : "yarn.lock" ∉ changedFiles := by simpa using h4
    simp [runPostUpdateSteps, installRequirementsIfNeeded, installNodeIfNeeded,
      runMigrationsIfNeeded, M.exec, M.bind, M.pure, m1, m2, m3, m4, h5]

/-- C6 (witness): with no changed files no marker matches, and the selector
does nothing. -/
theorem c6_step_selector_witness :
    hasPostStepMarker [] = false ∧
    M.exec (runPostUpdateSteps wGood [] "/srv/app" none) = (Except.ok [], []) :=
  ⟨by decide, (c6_step_selector wGood [] "/srv/app" none).2.2.2.2 (by decide)⟩

/-! ## Absence of exceptions

`M.noThrow x` says `x` returns a value on every starting trace.  The
status query uses only non-strict command invocations, so it cannot raise
as long as every external command completes (no timeout, binary present);
`WorldResponds` captures that environment assumption. -/

/-- Computation `x` never raises. -/
def M.noThrow {α : Type} (x : M α) : Prop :=
  ∀ tr, ∃ a tr2, x tr = (Except.ok a, tr2)

/-- Every command invocation completes: no timeout, no missing binary. -/
def WorldResponds (w : World) : Prop :=
  ∀ args, ∃ c, w.run args = RunOutcome.completed c

theorem noThrow_pure {α : Type} (a : α) : M.noThrow (M.pure a) :=
  fun tr => ⟨a, tr, rfl⟩

theorem noThrow_emit (e : Effect) : M.noThrow (M.emit e) :=
  fun tr => ⟨PUnit.unit, tr ++ [e], rfl⟩

theorem noThrow_bind {α β : Type} {x : M α} {f : α → M β}
    (hx : M.noThrow x) (hf : ∀ a, M.noThrow (f a)) : M.noThrow (M.bind x f) := by
  intro tr
  obtain ⟨a, tr2, hx2⟩ := hx tr
  obtain ⟨b, tr3, hf2⟩ := hf a tr2
  refine ⟨b, tr3, ?_⟩
  simp only [M.bind, hx2, hf2]

theorem noThrow_toSum {α : Type} (x : M α) : M.noThrow (M.toSum x) := by
  intro tr
  unfold M.toSum
  rcases hx : x tr with ⟨r, tr2⟩
  cases r
  · exact ⟨_, tr2, rfl⟩
  · exact ⟨_, tr2, rfl⟩

theorem noThrow_ite {α : Type} {c : Prop} [Decidable c] {x y : M α}
    (hx : M.noThrow x) (hy : M.noThrow y) : M.noThrow (if c then x else y) := by
  split <;> assumption

theorem noThrow_appendLog (lp txt : String) : M.noThrow (appendLog lp txt) :=
  noThrow_bind (noThrow_emit _) (fun _ => noThrow_emit _)

/-- A non-strict command invocation cannot raise in a responsive world. -/
theorem noThrow_runCommand_nc (w : World) (h : WorldResponds w)
    (args : List String) (lp : Option String) (t : Nat) :
    M.noThrow (runCommand w args lp false t) := by
  obtain ⟨c, hc⟩ := h args
  unfold runCommand
  rw [hc]
  refine noThrow_bind ?_ (fun _ => ?_)
  · cases lp
    · exact noThrow_pure _
    · exact noThrow_appendLog _ _
  · refine noThrow_bind (noThrow_emit _) (fun _ => noThrow_bind ?_ (fun _ => ?_))
    · cases lp
      · exact noThrow_pure _
      · exact noThrow_bind
          (noThrow_ite (noThrow_appendLog _ _) (noThrow_pure _))
          (fun _ => noThrow_ite (noThrow_appendLog _ _) (noThrow_pure _))
    · simp only [Bool.false_and, Bool.false_eq_true, if_false]
      exact noThrow_pure c

theorem noThrow_isGitRepo (w : World) (h : WorldResponds w) : M.noThrow (isGitRepo w) :=
  noThrow_bind (noThrow_runCommand_nc w h _ _ _) (fun _ => noThrow_pure _)

theorem noThrow_getCurrentBranch (w : World) (h : WorldResponds w) :
    M.noThrow (getCurrentBranch w) :=
  noThrow_bind (noThrow_runCommand_nc w h _ _ _) (fun _ => noThrow_pure _)

theorem noThrow_fetchRemote (w : World) (h : WorldResponds w) (branch : String)
    (lp : Option String) : M.noThrow (fetchRemote w branch lp) :=
  noThrow_bind (noThrow_runCommand_nc w h _ _ _) (fun _ => noThrow_pure _)

theorem noThrow_remoteBranchExists (w : World) (h : WorldResponds w) (branch : String) :
    M.noThrow (remoteBranchExists w branch) :=
  noThrow_bind (noThrow_runCommand_nc w h _ _ _) (fun _ => noThrow_pure _)

theorem noThrow_getCommitInfo (w : World) (h : WorldResponds w) (ref : String) :
    M.noThrow (getCommitInfo w ref) :=
  noThrow_bind (noThrow_runCommand_nc w h _ _ _) (fun _ => noThrow_pure _)

theorem noThrow_getCommitsBetween (w : World) (h : WorldResponds w)
    (startRef endRef : String) (limit : Nat) :
    M.noThrow (getCommitsBetween w startRef endRef limit) :=
  noThrow_bind (noThrow_runCommand_nc w h _ _ _)
    (fun _ => noThrow_ite (noThrow_pure _) (noThrow_pure _))

theorem noThrow_firstExistingRemote (w : World) (h : WorldResponds w) :
    ∀ bs : List String, M.noThrow (firstExistingRemote w bs) := by
  intro bs
  induction bs with
  | nil => exact noThrow_pure _
  | cons b rest ih =>
    exact noThrow_bind (noThrow_remoteBranchExists w h b)
      (fun ok => noThrow_ite (noThrow_pure _) ih)

theorem noThrow_resolveBranch (w : World) (h : WorldResponds w) (settings : Settings) :
    M.noThrow (resolveBranch w settings) := by
  unfold resolveBranch
  refine noThrow_bind (noThrow_ite (noThrow_getCurrentBranch w h) (noThrow_pure _))
    (fun preferred => noThrow_bind (noThrow_getCurrentBranch w h)
      (fun current => noThrow_bind (noThrow_firstExistingRemote w h _) (fun found => ?_)))
  cases found
  · exact noThrow_pure _
  · exact noThrow_pure _

theorem noThrow_statusOnError (w : World) (h : WorldResponds w) (settings : Settings)
    (errs : List String) (e : Exc) (release : Option (List (String × String)))
    (ce : Option String) : M.noThrow (statusOnError w settings errs e release ce) := by
  unfold statusOnError
  exact noThrow_bind (noThrow_ite (noThrow_getCurrentBranch w h) (noThrow_pure _))
    (fun branch => noThrow_bind (noThrow_getCommitInfo w h _) (fun _ => noThrow_pure _))

theorem noThrow_getUpdateStatus (w : World) (h : WorldResponds w) (settings : Settings)
    (root : String) : M.noThrow (getUpdateStatus w settings root) := by
  unfold getUpdateStatus
  refine noThrow_bind (noThrow_isGitRepo w h) (fun repoOk => ?_)
  refine noThrow_ite (noThrow_pure _) ?_
  refine noThrow_bind (noThrow_toSum _) (fun r1 => ?_)
  rcases r1 with e | branch
  · exact noThrow_statusOnError w h settings [] e _ _
  refine noThrow_bind (noThrow_toSum _) (fun r2 => ?_)
  rcases r2 with e | fetchOk
  · exact noThrow_statusOnError w h settings [] e _ _
  refine noThrow_bind (noThrow_toSum _) (fun r3 => ?_)
  rcases r3 with e | current
  · exact noThrow_statusOnError w h settings _ e _ _
  refine noThrow_bind (noThrow_toSum _) (fun r4 => ?_)
  rcases r4 with e | remote
  · exact noThrow_statusOnError w h settings _ e _ _
  refine noThrow_bind (noThrow_toSum _) (fun r5 => ?_)
  rcases r5 with e | commits
  · exact noThrow_statusOnError w h settings _ e _ _
  · exact noThrow_pure _

/-! ## Ground string facts shared by the scenario evaluations -/

theorem pyStrip_main : pyStrip "main" = "main" := by decide

theorem pyStrip_master : pyStrip "master" = "master" := by decide

theorem origin_main : "origin/" ++ "main" = "origin/main" := by decide

theorem origin_master : "origin/" ++ "master" = "origin/master" := by decide

theorem candidates_all_main : buildCandidates ["main", "main", "main", "master"] =
    ["main", "master"] := by decide

theorem pyOr_branch_main : pyStrip (pyOr (some "main") "") = "main" := by decide

/-! ## C2 — get_update_status and exceptions -/

/-- C2 (counterexample): when the very first external command — the
repository probe `git rev-parse --is-inside-work-tree` — times out,
`get_update_status` propagates the `UpdateError` to its caller instead of
returning an `UpdateStatus`: the probe runs before the function's
`try`/`except` block. -/
theorem c2_status_can_raise_counterexample :
    (M.exec (getUpdateStatus wTimedOut sMain "/srv/app")).1 =
      Except.error (Exc.updateError
        "Command timed out after 300s: git rev-parse --is-inside-work-tree") := rfl

/-- C2 (amended): whenever every external command invocation completes —
no command times out and the version-control binary is present —
`get_update_status` returns an `UpdateStatus` value and never raises, and
each failure degrades into an entry of the returned errors list: a
non-repository directory yields the two fixed diagnostics with null refs
and `has_updates = false`, and (branch pinned to "main") a failed fetch,
an unresolvable HEAD and an unresolvable remote each contribute exactly
their own message, in that order.  (A timeout or a missing binary, by
contrast, can escape: the initial repository probe and the handler's own
re-resolution run outside the guarded block, and the command runner
raises on timeout even in non-strict mode.) -/
theorem c2_status_total (w : World) (settings : Settings) (root : String)
    (h : WorldResponds w) :
    (∃ st tr, M.exec (getUpdateStatus w settings root) = (Except.ok st, tr)) ∧
    (∀ cRepo : CompletedProcess,
      w.run ["git", "rev-parse", "--is-inside-work-tree"] = RunOutcome.completed cRepo →
      (cRepo.returncode == 0 && pyLower (pyStrip cRepo.stdout) == "true") = false →
      ∃ st tr, M.exec (getUpdateStatus w settings root) = (Except.ok st, tr) ∧
        st.current = none ∧ st.remote = none ∧ st.has_updates = false ∧
        st.errors = [gitMissingMsg,
          "Источник данных для /update: локальный git (HEAD и origin/<ветка>)."]) ∧
    (∀ cRepo cCur cVer cFetch cHead cRem cLog : CompletedProcess,
      settings.update_branch = some "main" →
      w.run ["git", "rev-parse", "--is-inside-work-tree"] = RunOutcome.completed cRepo →
      cRepo.returncode = 0 → pyLower (pyStrip cRepo.stdout) = "true" →
      w.run ["git", "rev-parse", "--abbrev-ref", "HEAD"] = RunOutcome.completed cCur →
      pyStrip cCur.stdout = "main" →
      w.run ["git", "rev-parse", "--verify", "origin/main"] = RunOutcome.completed cVer →
      cVer.returncode = 0 →
      w.run ["git", "fetch", "--prune", "origin", "main"] = RunOutcome.completed cFetch →
      w.run ["git", "show", "-s", commitFormat, "HEAD"] = RunOutcome.completed cHead →
      w.run ["git", "show", "-s", commitFormat, "origin/main"] = RunOutcome.completed cRem →
      w.run ["git", "log", "--reverse", "--max-count=30", commitFormat,
        "HEAD..origin/main"] = RunOutcome.completed cLog →
      ∃ st tr, M.exec (getUpdateStatus w settings root) = (Except.ok st, tr) ∧
        st.branch = "main" ∧ st.current = commitOf cHead ∧ st.remote = commitOf cRem ∧
        st.errors =
          (if cFetch.returncode == 0 then ([] : List String)
           else ["Не удалось выполнить git fetch origin main."]) ++
          (if commitOf cHead = none then ["Не удалось определить текущий commit (HEAD)."]
           else []) ++
          (if commitOf cRem = none then ["Не удалось определить commit origin/main."]
           else [])) := by
  refine ⟨noThrow_getUpdateStatus w h settings root [], ?nonrepo, ?inrepo⟩
  case nonrepo =>
    intro cRepo hRepo hBad
    simp [getUpdateStatus, isGitRepo, runCommand, M.bind, M.pure, M.emit, M.toSum,
      M.exec, M.throw, hRepo, hBad]
  case inrepo =>
    intro cRepo cCur cVer cFetch cHead cRem cLog hub hRepo hRepoOk hRepoOut hCur hCurOut
      hVer hVerOk hFetch hHead hRem hLog
    have hName : pyOrS (pyStrip cCur.stdout) "main" = "main" := by rw [hCurOut]; decide
    have hMsgF : "Не удалось выполнить git fetch origin " ++ "main" ++ "." =
        "Не удалось выполнить git fetch origin main." := by decide
    have hMsgR : "Не удалось определить commit origin/" ++ "main" ++ "." =
        "Не удалось определить commit origin/main." := by decide
    have hMax : "--max-count=" ++ natToStr 30 = "--max-count=30" := by decide
    have hRange : "HEAD" ++ ".." ++ "origin/main" = "HEAD..origin/main" := by decide
    rcases hF : (cFetch.returncode == 0) with _ | _ <;>
      rcases hB : commitOf cHead with _ | b <;>
        rcases hR : commitOf cRem with _ | r
    case false.none.none =>
      simp [getUpdateStatus, getCommitsBetween, getCommitInfo, isGitRepo, getCurrentBranch,
        resolveBranch, firstExistingRemote, remoteBranchExists, fetchRemote, getRemoteCommit,
        runCommand, M.bind, M.pure, M.emit, M.toSum, M.exec, M.throw,
        hub, hRepo, hRepoOk, hRepoOut, hCur, hVer, hVerOk, hFetch, hHead, hRem, hLog,
        pyOr_branch_main, candidates_all_main, hName, pyStrip_main, pyStrip_master,
        origin_main, origin_master, hMsgF, hMsgR, hMax, hRange, hF, hB, hR]
    case false.none.some =>
      simp [getUpdateStatus, getCommitsBetween, getCommitInfo, isGitRepo, getCurrentBranch,
        resolveBranch, firstExistingRemote, remoteBranchExists, fetchRemote, getRemoteCommit,
        runCommand, M.bind, M.pure, M.emit, M.toSum, M.exec, M.throw,
        hub, hRepo, hRepoOk, hRepoOut, hCur, hVer, hVerOk, hFetch, hHead, hRem, hLog,
        pyOr_branch_main, candidates_all_main, hName, pyStrip_main, pyStrip_master,
        origin_main, origin_master, hMsgF, hMsgR, hMax, hRange, hF, hB, hR]
    case false.some.none =>
      simp [getUpdateStatus, getCommitsBetween, getCommitInfo, isGitRepo, getCurrentBranch,
        resolveBranch, firstExistingRemote, remoteBranchExists, fetchRemote, getRemoteCommit,
        runCommand, M.bind, M.pure, M.emit, M.toSum, M.exec, M.throw,
        hub, hRepo, hRepoOk, hRepoOut, hCur, hVer, hVerOk, hFetch, hHead, hRem, hLog,
        pyOr_branch_main, candidates_all_main, hName, pyStrip_main, pyStrip_master,
        origin_main, origin_master, hMsgF, hMsgR, hMax, hRange, hF, hB, hR]
    case false.some.some =>
      by_cases hEq : b.full_hash = r.full_hash <;>
        by_cases hLrc : cLog.returncode = 0 <;>
        simp [getUpdateStatus, getCommitsBetween, getCommitInfo, isGitRepo, getCurrentBranch,
          resolveBranch, firstExistingRemote, remoteBranchExists, fetchRemote, getRemoteCommit,
          runCommand, M.bind, M.pure, M.emit, M.toSum, M.exec, M.throw,
          hub, hRepo, hRepoOk, hRepoOut, hCur, hVer, hVerOk, hFetch, hHead, hRem, hLog,
          pyOr_branch_main, candidates_all_main, hName, pyStrip_main, pyStrip_master,
          origin_main, origin_master, hMsgF, hMsgR, hMax, hRange, hF, hB, hR, hEq, hLrc]
    case true.none.none =>
      simp [getUpdateStatus, getCommitsBetween, getCommitInfo, isGitRepo, getCurrentBranch,
        resolveBranch, firstExistingRemote, remoteBranchExists, fetchRemote, getRemoteCommit,
        runCommand, M.bind, M.pure, M.emit, M.toSum, M.exec, M.throw,
        hub, hRepo, hRepoOk, hRepoOut, hCur, hVer, hVerOk, hFetch, hHead, hRem, hLog,
        pyOr_branch_main, candidates_all_main, hName, pyStrip_main, pyStrip_master,
        origin_main, origin_master, hMsgF, hMsgR, hMax, hRange, hF, hB, hR]
    case true.none.some =>
      simp [getUpdateStatus, getCommitsBetween, getCommitInfo, isGitRepo, getCurrentBranch,
        resolveBranch, firstExistingRemote, remoteBranchExists, fetchRemote, getRemoteCommit,
        runCommand, M.bind, M.pure, M.emit, M.toSum, M.exec, M.throw,
        hub, hRepo, hRepoOk, hRepoOut, hCur, hVer, hVerOk, hFetch, hHead, hRem, hLog,
        pyOr_branch_main, candidates_all_main, hName, pyStrip_main, pyStrip_master,
        origin_main, origin_master, hMsgF, hMsgR, hMax, hRange, hF, hB, hR]
    case true.some.none =>
      simp [getUpdateStatus, getCommitsBetween, getCommitInfo, isGitRepo, getCurrentBranch,
        resolveBranch, firstExistingRemote, remoteBranchExists, fetchRemote, getRemoteCommit,
        runCommand, M.bind, M.pure, M.emit, M.toSum, M.exec, M.throw,
        hub, hRepo, hRepoOk, hRepoOut, hCur, hVer, hVerOk, hFetch, hHead, hRem, hLog,
        pyOr_branch_main, candidates_all_main, hName, pyStrip_main, pyStrip_master,
        origin_main, origin_master, hMsgF, hMsgR, hMax, hRange, hF, hB, hR]
    case true.some.some =>
      by_cases hEq : b.full_hash = r.full_hash <;>
        by_cases hLrc : cLog.returncode = 0 <;>
        simp [getUpdateStatus, getCommitsBetween, getCommitInfo, isGitRepo, getCurrentBranch,
          resolveBranch, firstExistingRemote, remoteBranchExists, fetchRemote, getRemoteCommit,
          runCommand, M.bind, M.pure, M.emit, M.toSum, M.exec, M.throw,
          hub, hRepo, hRepoOk, hRepoOut, hCur, hVer, hVerOk, hFetch, hHead, hRem, hLog,
          pyOr_branch_main, candidates_all_main, hName, pyStrip_main, pyStrip_master,
          origin_main, origin_master, hMsgF, hMsgR, hMax, hRange, hF, hB, hR, hEq, hLrc]

/-- The good world answers every command. -/
theorem respondsGood : WorldResponds wGood := by
  intro args
  show ∃ c, runsAllGood args = RunOutcome.completed c
  unfold runsAllGood
  split_ifs <;> exact ⟨_, rfl⟩

/-- The world with unresolvable commits still answers every command. -/
theorem respondsNoHead : WorldResponds wNoHead := by
  intro args
  show ∃ c, (if listStarts ["git", "show"] args then
      RunOutcome.completed ⟨1, "", "fatal"⟩ else runsAllGood args) = RunOutcome.completed c
  unfold runsAllGood
  split_ifs <;> exact ⟨_, rfl⟩

/-- C2 (witness): in a fully responsive world the status query returns a
value, and with unresolvable HEAD and remote both failures are reported
in the errors list. -/
theorem c2_status_total_witness :
    (∃ st tr, M.exec (getUpdateStatus wGood sMain "/srv/app") = (Except.ok st, tr)) ∧
    (∃ st tr, M.exec (getUpdateStatus wNoHead sMain "/srv/app") = (Except.ok st, tr) ∧
      st.errors = ["Не удалось определить текущий commit (HEAD).",
                   "Не удалось определить commit origin/main."]) := by
  constructor
  · exact (c2_status_total wGood sMain "/srv/app" respondsGood).1
  · have h := (c2_status_total wNoHead sMain "/srv/app" respondsNoHead).2.2
      ⟨0, "true\n", ""⟩ ⟨0, "main\n", ""⟩ ⟨0, "", ""⟩ ⟨0, "", ""⟩
      ⟨1, "", "fatal"⟩ ⟨1, "", "fatal"⟩ ⟨0, "", ""⟩
      rfl rfl rfl (by decide) rfl (by decide) rfl rfl rfl rfl rfl rfl
    obtain ⟨st, tr, he, hbr, hcur, hrem, herr⟩ := h
    refine ⟨st, tr, he, ?_⟩
    rw [herr]
    decide

/-! ## C5 — run_update with unresolvable current/remote commit -/

/-- C5 (counterexample): in a repository where commit resolution fails,
`run_update` does fail with `before == after` and no mutation, but the
reported error text is "Cannot resolve current/remote commit" with a
capital C — not the string "cannot resolve current/remote commit" that the
claim states. -/
theorem c5_error_text_counterexample :
    (M.exec (runUpdate wNoHead sMain "/srv/app" true)).1 = Except.ok
      { ok := false, branch := "main", before := none, after := none, remote := none,
        changed_files := [], steps := [], restart_required := false,
        restart_performed := false,
        error := some "Cannot resolve current/remote commit" } ∧
    "Cannot resolve current/remote commit" ≠ "cannot resolve current/remote commit" :=
  ⟨rfl, by decide⟩

/-- C5 (amended): in a version-controlled directory (pinned to branch
"main"), whenever `run_update` cannot resolve the current HEAD commit or
the remote commit, it returns a failed result with error
"Cannot resolve current/remote commit" (capital C), `before` equal to
`after` (both re-resolving HEAD against the same command outcomes), empty
steps and changed files, and its effect trace contains no mutation: no
pull, no dependency or migration step, no state-file write. -/
theorem c5_unresolvable_fails_without_mutation (w : World) (settings : Settings)
    (root : String) (er : Bool) (cHead cRepo cCur cVer cFetch cRem : CompletedProcess)
    (hub : settings.update_branch = some "main")
    (hRepo : w.run ["git", "rev-parse", "--is-inside-work-tree"] = RunOutcome.completed cRepo)
    (hRepoOk : cRepo.returncode = 0)
    (hRepoOut : pyLower (pyStrip cRepo.stdout) = "true")
    (hHead : w.run ["git", "show", "-s", commitFormat, "HEAD"] = RunOutcome.completed cHead)
    (hCur : w.run ["git", "rev-parse", "--abbrev-ref", "HEAD"] = RunOutcome.completed cCur)
    (hCurOut : pyStrip cCur.stdout = "main")
    (hVer : w.run ["git", "rev-parse", "--verify", "origin/main"] = RunOutcome.completed cVer)
    (hVerOk : cVer.returncode = 0)
    (hFetch : w.run ["git", "fetch", "--prune", "origin", "main"] = RunOutcome.completed cFetch)
    (hFetchOut : cFetch.stdout = "") (hFetchErr : cFetch.stderr = "")
    (hRem : w.run ["git", "show", "-s", commitFormat, "origin/main"] = RunOutcome.completed cRem)
    (hMiss : commitOf cHead = none ∨ commitOf cRem = none) :
    (M.exec (runUpdate w settings root er)).1 = Except.ok
      { ok := false, branch := "main", before := commitOf cHead, after := commitOf cHead,
        remote := commitOf cRem, changed_files := [], steps := [],
        restart_required := false, restart_performed := false,
        error := some "Cannot resolve current/remote commit" } ∧
    ((M.exec (runUpdate w settings root er)).2).countP Effect.isMutation = 0 := by
  have hName : pyOrS (pyStrip cCur.stdout) "main" = "main" := by rw [hCurOut]; decide
  rcases hMiss with hB | hR
  · simp [runUpdate, updateFailed, getCommitInfo, isGitRepo, getCurrentBranch,
      resolveBranch, firstExistingRemote, remoteBranchExists, fetchRemote, getRemoteCommit,
      runCommand, appendLog, M.bind, M.pure, M.emit, M.toSum, M.exec, M.throw, excMsg,
      hub, hRepo, hRepoOk, hRepoOut, hHead, hCur, hVer, hVerOk, hFetch, hFetchOut,
      hFetchErr, hRem, pyOr_branch_main, candidates_all_main, hName, pyStrip_main,
      pyStrip_master, origin_main, origin_master, hB,
      Effect.isMutation, mutatingCmd, isNodeInstallCmd, isPipInstallCmd, isMigrationCmd,
      listStarts, listEnds, List.countP_cons]
  · rcases hBv : commitOf cHead with _ | b
    · simp [runUpdate, updateFailed, getCommitInfo, isGitRepo, getCurrentBranch,
        resolveBranch, firstExistingRemote, remoteBranchExists, fetchRemote, getRemoteCommit,
        runCommand, appendLog, M.bind, M.pure, M.emit, M.toSum, M.exec, M.throw, excMsg,
        hub, hRepo, hRepoOk, hRepoOut, hHead, hCur, hVer, hVerOk, hFetch, hFetchOut,
        hFetchErr, hRem, pyOr_branch_main, candidates_all_main, hName, pyStrip_main,
        pyStrip_master, origin_main, origin_master, hBv,
        Effect.isMutation, mutatingCmd, isNodeInstallCmd, isPipInstallCmd, isMigrationCmd,
        listStarts, listEnds, List.countP_cons]
    · simp [runUpdate, updateFailed, getCommitInfo, isGitRepo, getCurrentBranch,
        resolveBranch, firstExistingRemote, remoteBranchExists, fetchRemote, getRemoteCommit,
        runCommand, appendLog, M.bind, M.pure, M.emit, M.toSum, M.exec, M.throw, excMsg,
        hub, hRepo, hRepoOk, hRepoOut, hHead, hCur, hVer, hVerOk, hFetch, hFetchOut,
        hFetchErr, hRem, pyOr_branch_main, candidates_all_main, hName, pyStrip_main,
        pyStrip_master, origin_main, origin_master, hBv, hR,
        Effect.isMutation, mutatingCmd, isNodeInstallCmd, isPipInstallCmd, isMigrationCmd,
        listStarts, listEnds, List.countP_cons]

/-- C5 (witness): concrete world where HEAD and remote cannot be resolved. -/
theorem c5_unresolvable_witness :
    (M.exec (runUpdate wNoHead sMain "/srv/app" true)).1 = Except.ok
      { ok := false, branch := "main",
        before := commitOf ⟨1, "", "fatal"⟩, after := commitOf ⟨1, "", "fatal"⟩,
        remote := commitOf ⟨1, "", "fatal"⟩, changed_files := [], steps := [],
        restart_required := false, restart_performed := false,
        error := some "Cannot resolve current/remote commit" } ∧
    ((M.exec (runUpdate wNoHead sMain "/srv/app" true)).2).countP Effect.isMutation = 0 :=
  c5_unresolvable_fails_without_mutation wNoHead sMain "/srv/app" true
    ⟨1, "", "fatal"⟩ ⟨0, "true\n", ""⟩ ⟨0, "main\n", ""⟩ ⟨0, "", ""⟩ ⟨0, "", ""⟩
    ⟨1, "", "fatal"⟩ rfl rfl rfl (by decide) rfl rfl (by decide) rfl rfl rfl rfl rfl rfl
    (Or.inl (by decide))

/-! ## C3 — run_update when HEAD already equals the remote commit -/

/-- Evaluation of the no-updates fast path of `run_update` (HEAD hash equal
to the remote hash, branch pinned to "main"): success with steps
`["no updates"]`, `after = before`, and a mutation-free trace. -/
theorem runUpdate_noUpdates_eval (w : World) (settings : Settings) (root : String)
    (er : Bool) (cHead cRepo cCur cVer cFetch cRem : CompletedProcess) (b r : CommitInfo)
    (hub : settings.update_branch = some "main")
    (hRepo : w.run ["git", "rev-parse", "--is-inside-work-tree"] = RunOutcome.completed cRepo)
    (hRepoOk : cRepo.returncode = 0)
    (hRepoOut : pyLower (pyStrip cRepo.stdout) = "true")
    (hHead : w.run ["git", "show", "-s", commitFormat, "HEAD"] = RunOutcome.completed cHead)
    (hCur : w.run ["git", "rev-parse", "--abbrev-ref", "HEAD"] = RunOutcome.completed cCur)
    (hCurOut : pyStrip cCur.stdout = "main")
    (hVer : w.run ["git", "rev-parse", "--verify", "origin/main"] = RunOutcome.completed cVer)
    (hVerOk : cVer.returncode = 0)
    (hFetch : w.run ["git", "fetch", "--prune", "origin", "main"] = RunOutcome.completed cFetch)
    (hFetchOut : cFetch.stdout = "") (hFetchErr : cFetch.stderr = "")
    (hRem : w.run ["git", "show", "-s", commitFormat, "origin/main"] = RunOutcome.completed cRem)
    (hB : commitOf cHead = some b) (hR : commitOf cRem = some r)
    (hEq : b.full_hash = r.full_hash) :
    (M.exec (runUpdate w settings root er)).1 = Except.ok
      { ok := true, branch := "main", before := some b, after := some b, remote := some r,
        changed_files := [], steps := ["no updates"], restart_required := false,
        restart_performed := false, error := none } ∧
    ((M.exec (runUpdate w settings root er)).2).countP Effect.isMutation = 0 ∧
    writesToPath (statePathOf settings root) ((M.exec (runUpdate w settings root er)).2)
      = false := by
  have hName : pyOrS (pyStrip cCur.stdout) "main" = "main" := by rw [hCurOut]; decide
  simp [runUpdate, updateFailed, getCommitInfo, isGitRepo, getCurrentBranch,
    resolveBranch, firstExistingRemote, remoteBranchExists, fetchRemote, getRemoteCommit,
    runCommand, appendLog, M.bind, M.pure, M.emit, M.toSum, M.exec, M.throw, excMsg,
    hub, hRepo, hRepoOk, hRepoOut, hHead, hCur, hVer, hVerOk, hFetch, hFetchOut,
    hFetchErr, hRem, pyOr_branch_main, candidates_all_main, hName, pyStrip_main,
    pyStrip_master, origin_main, origin_master, hB, hR, hEq,
    Effect.isMutation, mutatingCmd, isNodeInstallCmd, isPipInstallCmd, isMigrationCmd,
    listStarts, listEnds, List.countP_cons, writesToPath]

/-- C3: whenever `run_update` (branch pinned to "main") finds the current
HEAD hash equal to the remote hash, it returns ok with steps exactly
`["no updates"]` and `before` equal to `after`, performs no mutation — no
pull, no post-update step, no write to the State Store file — and any
second run against the same command outcomes returns the same result (an
idempotent no-op). -/
theorem c3_no_updates_idempotent (w : World) (settings : Settings) (root : String)
    (er : Bool) (cHead cRepo cCur cVer cFetch cRem : CompletedProcess) (b r : CommitInfo)
    (hub : settings.update_branch = some "main")
    (hRepo : w.run ["git", "rev-parse", "--is-inside-work-tree"] = RunOutcome.completed cRepo)
    (hRepoOk : cRepo.returncode = 0)
    (hRepoOut : pyLower (pyStrip cRepo.stdout) = "true")
    (hHead : w.run ["git", "show", "-s", commitFormat, "HEAD"] = RunOutcome.completed cHead)
    (hCur : w.run ["git", "rev-parse", "--abbrev-ref", "HEAD"] = RunOutcome.completed cCur)
    (hCurOut : pyStrip cCur.stdout = "main")
    (hVer : w.run ["git", "rev-parse", "--verify", "origin/main"] = RunOutcome.completed cVer)
    (hVerOk : cVer.returncode = 0)
    (hFetch : w.run ["git", "fetch", "--prune", "origin", "main"] = RunOutcome.completed cFetch)
    (hFetchOut : cFetch.stdout = "") (hFetchErr : cFetch.stderr = "")
    (hRem : w.run ["git", "show", "-s", commitFormat, "origin/main"] = RunOutcome.completed cRem)
    (hB : commitOf cHead = some b) (hR : commitOf cRem = some r)
    (hEq : b.full_hash = r.full_hash) :
    (M.exec (runUpdate w settings root er)).1 = Except.ok
      { ok := true, branch := "main", before := some b, after := some b, remote := some r,
        changed_files := [], steps := ["no updates"], restart_required := false,
        restart_performed := false, error := none } ∧
    ((M.exec (runUpdate w settings root er)).2).countP Effect.isMutation = 0 ∧
    writesToPath (statePathOf settings root) ((M.exec (runUpdate w settings root er)).2)
      = false ∧
    (∀ w2 : World, w2.run = w.run →
      (M.exec (runUpdate w2 settings root er)).1 =
        (M.exec (runUpdate w settings root er)).1) := by
  have h1 := runUpdate_noUpdates_eval w settings root er cHead cRepo cCur cVer cFetch cRem
    b r hub hRepo hRepoOk hRepoOut hHead hCur hCurOut hVer hVerOk hFetch hFetchOut
    hFetchErr hRem hB hR hEq
  refine ⟨h1.1, h1.2.1, h1.2.2, ?_⟩
  intro w2 hw2
  have h2 := runUpdate_noUpdates_eval w2 settings root er cHead cRepo cCur cVer cFetch cRem
    b r hub (by rw [hw2]; exact hRepo) hRepoOk hRepoOut (by rw [hw2]; exact hHead)
    (by rw [hw2]; exact hCur) hCurOut (by rw [hw2]; exact hVer) hVerOk
    (by rw [hw2]; exact hFetch) hFetchOut hFetchErr (by rw [hw2]; exact hRem) hB hR hEq
  rw [h2.1, h1.1]

/-- C3 (witness): a concrete world whose HEAD already equals origin/main. -/
theorem c3_no_updates_witness :
    (M.exec (runUpdate wGood sMain "/srv/app" true)).1 = Except.ok
      { ok := true, branch := "main",
        before := some ⟨"aaa111", "aaa", "Alice", "2024-01-01T10:00:00+00:00", "msg one"⟩,
        after := some ⟨"aaa111", "aaa", "Alice", "2024-01-01T10:00:00+00:00", "msg one"⟩,
        remote := some ⟨"aaa111", "aaa", "Alice", "2024-01-01T10:00:00+00:00", "msg one"⟩,
        changed_files := [], steps := ["no updates"], restart_required := false,
        restart_performed := false, error := none } ∧
    ((M.exec (runUpdate wGood sMain "/srv/app" true)).2).countP Effect.isMutation = 0 ∧
    writesToPath (statePathOf sMain "/srv/app")
      ((M.exec (runUpdate wGood sMain "/srv/app" true)).2) = false ∧
    (∀ w2 : World, w2.run = wGood.run →
      (M.exec (runUpdate w2 sMain "/srv/app" true)).1 =
        (M.exec (runUpdate wGood sMain "/srv/app" true)).1) :=
  c3_no_updates_idempotent wGood sMain "/srv/app" true
    ⟨0, sampleCommitLine ++ "\n", ""⟩ ⟨0, "true\n", ""⟩ ⟨0, "main\n", ""⟩
    ⟨0, "", ""⟩ ⟨0, "", ""⟩ ⟨0, sampleCommitLine ++ "\n", ""⟩
    ⟨"aaa111", "aaa", "Alice", "2024-01-01T10:00:00+00:00", "msg one"⟩
    ⟨"aaa111", "aaa", "Alice", "2024-01-01T10:00:00+00:00", "msg one"⟩
    rfl rfl rfl (by decide) rfl rfl (by decide) rfl rfl rfl rfl rfl rfl
    (by decide) (by decide) rfl

/-! ## C4 — rollback target resolution -/

/-- C4 (counterexample): with no explicit target and an absent state file,
`rollback` fails as claimed, but (i) the error string is
"Rollback commit is not known" with a capital R, not the claimed
"rollback commit is not known", and (ii) version-control commands did run
before the failure (the repository probe and the HEAD resolution), so
"executes no version-control command" is false as stated. -/
theorem c4_unknown_target_counterexample :
    (M.exec (rollback wGood sMain "/srv/app" none true)).1 = Except.ok
      { ok := false, target_commit := none,
        before := some ⟨"aaa111", "aaa", "Alice", "2024-01-01T10:00:00+00:00", "msg one"⟩,
        after := some ⟨"aaa111", "aaa", "Alice", "2024-01-01T10:00:00+00:00", "msg one"⟩,
        steps := [], restart_required := false, restart_performed := false,
        error := some "Rollback commit is not known" } ∧
    "Rollback commit is not known" ≠ "rollback commit is not known" ∧
    ranGitCommand ((M.exec (rollback wGood sMain "/srv/app" none true)).2) = true :=
  ⟨rfl, by decide, by decide⟩

/-- C4 (amended): `rollback` resolves its target with the precedence
explicit non-empty (stripped) argument, else the stored `previous_head`,
else the stored `last_known_good`; if all three are absent or empty it
returns ok=false with error "Rollback commit is not known" (capital R),
performs no state write and no mutating version-control command (no
`git reset`) — though the read-only repository probe and HEAD resolution
do run first; and when a target resolves, the returned `target_commit` is
exactly the resolved candidate. -/
theorem c4_rollback_target_precedence (w : World) (settings : Settings) (root : String)
    (target : Option String) (er : Bool) (cHead cRepo cReset : CompletedProcess)
    (hRepo : w.run ["git", "rev-parse", "--is-inside-work-tree"] = RunOutcome.completed cRepo)
    (hRepoOk : cRepo.returncode = 0)
    (hRepoOut : pyLower (pyStrip cRepo.stdout) = "true")
    (hHead : w.run ["git", "show", "-s", commitFormat, "HEAD"] = RunOutcome.completed cHead) :
    (pyStrip (pyOr target "") ≠ "" →
      rollbackCandidate w settings root target = pyStrip (pyOr target "")) ∧
    (pyStrip (pyOr target "") = "" →
      pyStrip (stateGetStr (loadState w settings root) "previous_head") ≠ "" →
      rollbackCandidate w settings root target =
        pyStrip (stateGetStr (loadState w settings root) "previous_head")) ∧
    (pyStrip (pyOr target "") = "" →
      pyStrip (stateGetStr (loadState w settings root) "previous_head") = "" →
      rollbackCandidate w settings root target =
        pyStrip (stateGetStr (loadState w settings root) "last_known_good")) ∧
    (rollbackCandidate w settings root target = "" →
      (M.exec (rollback w settings root target er)).1 = Except.ok
        { ok := false, target_commit := none, before := commitOf cHead,
          after := commitOf cHead, steps := [], restart_required := false,
          restart_performed := false, error := some "Rollback commit is not known" } ∧
      ((M.exec (rollback w settings root target er)).2).countP Effect.isMutation = 0) ∧
    (rollbackCandidate w settings root target ≠ "" →
      settings.service_restart_mode = some "none" →
      w.run ["git", "reset", "--hard", rollbackCandidate w settings root target] =
        RunOutcome.completed cReset →
      cReset.returncode = 0 → cReset.stdout = "" → cReset.stderr = "" →
      ∃ res tr, M.exec (rollback w settings root target er) = (Except.ok res, tr) ∧
        res.target_commit = some (rollbackCandidate w settings root target) ∧
        res.ok = true) := by
  refine ⟨?p1, ?p2, ?p3, ?fail, ?go⟩
  case p1 =>
    intro h
    simp [rollbackCandidate, pyOrS, h]
  case p2 =>
    intro h1 h2
    simp [rollbackCandidate, pyOrS, h1, h2]
  case p3 =>
    intro h1 h2
    simp [rollbackCandidate, pyOrS, h1, h2]
  case fail =>
    intro hc
    simp [rollback, getCommitInfo, isGitRepo, runCommand, appendLog,
      M.bind, M.pure, M.emit, M.toSum, M.exec, M.throw, excMsg,
      hRepo, hRepoOk, hRepoOut, hHead, hc,
      Effect.isMutation, mutatingCmd, isNodeInstallCmd, isPipInstallCmd, isMigrationCmd,
      listStarts, listEnds, List.countP_cons]
  case go =>
    intro hc hMode hReset hRc hRO hRE
    have hRM : restartModeOf settings = "none" := by
      unfold restartModeOf
      rw [hMode]
      decide
    rcases hA : commitOf cHead with _ | a <;>
      simp [rollback, rollbackFinish, rollbackFailed, saveState, getCommitInfo, isGitRepo,
        runCommand, appendLog, M.bind, M.pure, M.emit, M.toSum, M.exec, M.throw, excMsg,
        hRepo, hRepoOk, hRepoOut, hHead, hc, hRM, hReset, hRc, hRO, hRE, hA]

/-- C4 (witness): an explicit target "abc" resolves with highest
precedence and is the commit the rollback resets to. -/
theorem c4_rollback_target_witness :
    rollbackCandidate wGood { service_restart_mode := some "none" } "/srv/app"
      (some "abc") = pyStrip (pyOr (some "abc") "") ∧
    (∃ res tr,
      M.exec (rollback wGood { service_restart_mode := some "none" } "/srv/app"
        (some "abc") true) = (Except.ok res, tr) ∧
      res.target_commit =
        some (rollbackCandidate wGood { service_restart_mode := some "none" } "/srv/app"
          (some "abc")) ∧
      res.ok = true) := by
  have h := c4_rollback_target_precedence wGood { service_restart_mode := some "none" }
    "/srv/app" (some "abc") true ⟨0, sampleCommitLine ++ "\n", ""⟩ ⟨0, "true\n", ""⟩
    ⟨0, "", ""⟩ rfl rfl (by decide) rfl
  exact ⟨h.1 (by decide), h.2.2.2.2 (by decide) rfl rfl rfl rfl rfl⟩

/-! ## C7 — branch resolution -/

/-- Does `origin/<branch>` exist, as the `rev-parse --verify` probe
reports it? -/
def existsRemote (w : World) (branch : String) : Bool :=
  match w.run ["git", "rev-parse", "--verify", "origin/" ++ branch] with
  | RunOutcome.completed c => c.returncode == 0
  | _ => false

/-- The claim-side description of branch resolution: the first candidate —
in the order configured name, current branch, "main", "master" (deduplicated,
empty names dropped) — whose remote branch exists, with the preferred name
(falling back to "main") when none exists remotely. -/
def branchResolutionSpec (w : World) (preferred current : String) : String :=
  match (buildCandidates [preferred, current, "main", "master"]).find? (existsRemote w) with
  | some b => b
  | none => pyOrS preferred "main"

theorem getCurrentBranch_eval (w : World) (cCur : CompletedProcess)
    (hCur : w.run ["git", "rev-parse", "--abbrev-ref", "HEAD"] = RunOutcome.completed cCur) :
    ∀ tr, getCurrentBranch w tr = (Except.ok (pyOrS (pyStrip cCur.stdout) "main"),
      tr ++ [Effect.ranCommand ["git", "rev-parse", "--abbrev-ref", "HEAD"]]) := by
  intro tr
  simp [getCurrentBranch, runCommand, M.bind, M.emit, M.pure, hCur]

theorem remoteBranchExists_eval (w : World) (b : String) (c : CompletedProcess)
    (hc : w.run ["git", "rev-parse", "--verify", "origin/" ++ b] = RunOutcome.completed c) :
    ∀ tr, remoteBranchExists w b tr = (Except.ok (c.returncode == 0),
      tr ++ [Effect.ranCommand ["git", "rev-parse", "--verify", "origin/" ++ b]]) := by
  intro tr
  simp [remoteBranchExists, runCommand, M.bind, M.emit, M.pure, hc]

theorem firstExistingRemote_eval (w : World) (h : WorldResponds w) (bs : List String) :
    ∀ tr, ∃ Δ, firstExistingRemote w bs tr =
      (Except.ok (bs.find? (existsRemote w)), tr ++ Δ) := by
  induction bs with
  | nil =>
    intro tr
    exact ⟨[], by simp [firstExistingRemote, M.pure]⟩
  | cons b rest ih =>
    intro tr
    obtain ⟨c, hc⟩ := h ["git", "rev-parse", "--verify", "origin/" ++ b]
    have he : existsRemote w b = (c.returncode == 0) := by simp [existsRemote, hc]
    rcases hrc : (c.returncode == 0) with _ | _
    · obtain ⟨Δ, hΔ⟩ := ih
        (tr ++ [Effect.ranCommand ["git", "rev-parse", "--verify", "origin/" ++ b]])
      refine ⟨[Effect.ranCommand ["git", "rev-parse", "--verify", "origin/" ++ b]] ++ Δ, ?_⟩
      simp [firstExistingRemote, M.bind, remoteBranchExists_eval w b c hc, hrc, hΔ,
        List.find?, he, M.pure]
    · refine ⟨[Effect.ranCommand ["git", "rev-parse", "--verify", "origin/" ++ b]], ?_⟩
      simp [firstExistingRemote, M.bind, remoteBranchExists_eval w b c hc, hrc,
        List.find?, he, M.pure]

/-- C7: branch resolution returns the first candidate — configured name,
current branch, "main", "master", in that order — whose remote branch
exists (falling back to the preferred name when none does); in particular
with no configured name, current branch "feature-x", origin/main existing
and origin/master not, it resolves to "feature-x" when that exists
remotely and to "main" otherwise. -/
theorem c7_branch_resolution (w : World) (settings : Settings) (cCur : CompletedProcess)
    (h : WorldResponds w)
    (hCur : w.run ["git", "rev-parse", "--abbrev-ref", "HEAD"] = RunOutcome.completed cCur) :
    (M.exec (resolveBranch w settings)).1 = Except.ok
      (branchResolutionSpec w
        (if pyStrip (pyOr settings.update_branch "") = ""
         then pyOrS (pyStrip cCur.stdout) "main"
         else pyStrip (pyOr settings.update_branch ""))
        (pyOrS (pyStrip cCur.stdout) "main")) ∧
    (settings.update_branch = none → pyStrip cCur.stdout = "feature-x" →
      existsRemote w "main" = true → existsRemote w "master" = false →
      (M.exec (resolveBranch w settings)).1 = Except.ok
        (if existsRemote w "feature-x" then "feature-x" else "main")) := by
  have hMain : ∀ s : String, (M.exec (resolveBranch w settings)).1 = Except.ok
      (branchResolutionSpec w
        (if pyStrip (pyOr settings.update_branch "") = ""
         then pyOrS (pyStrip cCur.stdout) "main"
         else pyStrip (pyOr settings.update_branch ""))
        (pyOrS (pyStrip cCur.stdout) "main")) := by
    intro _
    by_cases hp : pyStrip (pyOr settings.update_branch "") = ""
    · obtain ⟨Δ, hΔ⟩ := firstExistingRemote_eval w h
        (buildCandidates [pyOrS (pyStrip cCur.stdout) "main",
          pyOrS (pyStrip cCur.stdout) "main", "main", "master"])
        [Effect.ranCommand ["git", "rev-parse", "--abbrev-ref", "HEAD"],
         Effect.ranCommand ["git", "rev-parse", "--abbrev-ref", "HEAD"]]
      rcases hf : (buildCandidates [pyOrS (pyStrip cCur.stdout) "main",
          pyOrS (pyStrip cCur.stdout) "main", "main", "master"]).find? (existsRemote w)
        with _ | b <;>
        simp [resolveBranch, M.bind, M.exec, M.pure, hp,
          getCurrentBranch_eval w cCur hCur, hΔ, hf, branchResolutionSpec]
    · obtain ⟨Δ, hΔ⟩ := firstExistingRemote_eval w h
        (buildCandidates [pyStrip (pyOr settings.update_branch ""),
          pyOrS (pyStrip cCur.stdout) "main", "main", "master"])
        [Effect.ranCommand ["git", "rev-parse", "--abbrev-ref", "HEAD"]]
      rcases hf : (buildCandidates [pyStrip (pyOr settings.update_branch ""),
          pyOrS (pyStrip cCur.stdout) "main", "main", "master"]).find? (existsRemote w)
        with _ | b <;>
        simp [resolveBranch, M.bind, M.exec, M.pure, hp,
          getCurrentBranch_eval w cCur hCur, hΔ, hf, branchResolutionSpec]
  refine ⟨hMain "", ?_⟩
  intro hub hfx hm hms
  rw [hMain ""]
  have hp0 : pyStrip (pyOr (none : Option String) "") = "" := by decide
  have hcn : pyOrS (pyStrip cCur.stdout) "main" = "feature-x" := by
    rw [hfx]; decide
  have hcands : buildCandidates ["feature-x", "feature-x", "main", "master"] =
      ["feature-x", "main", "master"] := by decide
  rcases hfe : existsRemote w "feature-x" with _ | _ <;>
    simp [branchResolutionSpec, hub, hp0, hcn, hcands, List.find?, hfe, hm, hms]

/-- C7 (witness): concrete world (origin/main exists, origin/master and
origin/feature-x do not; current branch "feature-x"; no configured name)
resolving to "main". -/
theorem c7_branch_resolution_witness :
    (M.exec (resolveBranch wFeature {})).1 = Except.ok
      (if existsRemote wFeature "feature-x" then "feature-x" else "main") :=
  (c7_branch_resolution wFeature {} ⟨0, "feature-x\n", ""⟩
    (by
      intro args
      show ∃ c, runsFeature args = RunOutcome.completed c
      unfold runsFeature runsAllGood
      split_ifs <;> exact ⟨_, rfl⟩)
    rfl).2 rfl (by decide) (by decide) (by decide)

/-! ## C9 — unset or empty restart mode -/

/-- C9: when the configured restart mode is unset or the empty string, the
normalised mode is "systemd", and `restart_service`, `run_update` and
`rollback` behave exactly as if "systemd" had been configured explicitly;
in particular the dispatcher then attempts a restart of the configured
systemd unit (rather than skipping as with "none"), and a mutating
`rollback` reports `restart_required = true`. -/
theorem c9_empty_mode_is_systemd (w : World) (settings : Settings) (root : String)
    (target : Option String) (er : Bool) (lp : Option String)
    (hMode : settings.service_restart_mode = none ∨
      settings.service_restart_mode = some "") :
    restartModeOf settings = "systemd" ∧
    restartService w settings root lp =
      restartService w { settings with service_restart_mode := some "systemd" } root lp ∧
    runUpdate w settings root er =
      runUpdate w { settings with service_restart_mode := some "systemd" } root er ∧
    rollback w settings root target er =
      rollback w { settings with service_restart_mode := some "systemd" } root target er ∧
    (w.which "sudo" = false →
      ∀ c : CompletedProcess,
        w.run ["systemctl", "restart", unitNameOf settings] = RunOutcome.completed c →
        c.returncode = 0 →
        M.exec (restartService w settings root none) =
          (Except.ok ("systemd restart: " ++ unitNameOf settings),
           [Effect.ranCommand ["systemctl", "restart", unitNameOf settings]])) ∧
    (∀ cRepo cHead cReset : CompletedProcess,
      w.run ["git", "rev-parse", "--is-inside-work-tree"] = RunOutcome.completed cRepo →
      cRepo.returncode = 0 → pyLower (pyStrip cRepo.stdout) = "true" →
      w.run ["git", "show", "-s", commitFormat, "HEAD"] = RunOutcome.completed cHead →
      rollbackCandidate w settings root target ≠ "" →
      w.run ["git", "reset", "--hard", rollbackCandidate w settings root target] =
        RunOutcome.completed cReset →
      cReset.returncode = 1 → cReset.stdout = "" → cReset.stderr = "" →
      ∃ res tr, M.exec (rollback w settings root target er) = (Except.ok res, tr) ∧
        res.restart_required = true ∧ res.ok = false) := by
  have h1 : restartModeOf settings = "systemd" := by
    rcases hMode with h | h <;> (unfold restartModeOf; rw [h]; decide)
  have h2 : restartModeOf { settings with service_restart_mode := some "systemd" } =
      "systemd" := rfl
  refine ⟨h1, ?eqR, ?eqU, ?eqB, ?attempt, ?required⟩
  case eqR =>
    unfold restartService
    rw [h1, h2]
    rfl
  case eqU =>
    unfold runUpdate restartService
    rw [h1, h2]
    rfl
  case eqB =>
    unfold rollback restartService
    rw [h1, h2]
    rfl
  case attempt =>
    intro hSudo c hc hrc
    simp [restartService, runCommand, M.bind, M.pure, M.emit, M.exec, M.throw,
      h1, hSudo, hc, hrc]
  case required =>
    intro cRepo cHead cReset hRepo hRepoOk hRepoOut hHead hc hReset hRc hRO hRE
    have hps : pyStrip "" = "" := by decide
    simp [rollback, rollbackFailed, getCommitInfo, isGitRepo, runCommand, appendLog,
      failureText, pyOrS, M.bind, M.pure, M.emit, M.toSum, M.exec, M.throw, excMsg,
      h1, hRepo, hRepoOk, hRepoOut, hHead, hc, hReset, hRc, hRO, hRE, hps]

/-- Configuration with an unset restart mode and a named systemd unit. -/
def sUnit : Settings := { systemd_service_name := some "svc" }

/-- C9 (witness): with the restart mode unset, the dispatcher restarts the
configured unit "svc". -/
theorem c9_empty_mode_is_systemd_witness :
    restartModeOf sUnit = "systemd" ∧
    M.exec (restartService wGood sUnit "/srv/app" none) =
      (Except.ok ("systemd restart: " ++ unitNameOf sUnit),
       [Effect.ranCommand ["systemctl", "restart", unitNameOf sUnit]]) := by
  have h := c9_empty_mode_is_systemd wGood sUnit "/srv/app" none true none (Or.inl rfl)
  exact ⟨h.1, h.2.2.2.2.1 rfl ⟨0, "", ""⟩ rfl rfl⟩

/-! ## C10 — rollback with unresolvable post-reset HEAD -/

/-- C10: when the hard reset and the requested systemd restart succeed but
the post-reset HEAD cannot be resolved, `rollback` still returns ok=true
(with `after = none` and the restart performed) while executing no
file-system write at all — in particular the State Store file is never
written, so previous_head, last_known_good, rolled_back_at and
rolled_back_to all keep their prior values. -/
theorem c10_rollback_no_state_write (w : World) (settings : Settings) (root : String)
    (target : Option String) (cRepo cHead cReset cSys : CompletedProcess)
    (hMode : settings.service_restart_mode = some "systemd")
    (hSudo : w.which "sudo" = false)
    (hRepo : w.run ["git", "rev-parse", "--is-inside-work-tree"] = RunOutcome.completed cRepo)
    (hRepoOk : cRepo.returncode = 0)
    (hRepoOut : pyLower (pyStrip cRepo.stdout) = "true")
    (hHead : w.run ["git", "show", "-s", commitFormat, "HEAD"] = RunOutcome.completed cHead)
    (hB : commitOf cHead = none)
    (hc : rollbackCandidate w settings root target ≠ "")
    (hReset : w.run ["git", "reset", "--hard", rollbackCandidate w settings root target] =
      RunOutcome.completed cReset)
    (hRc : cReset.returncode = 0) (hRO : cReset.stdout = "") (hRE : cReset.stderr = "")
    (hSys : w.run ["systemctl", "restart", unitNameOf settings] = RunOutcome.completed cSys)
    (hSysRc : cSys.returncode = 0) (hSysO : cSys.stdout = "") (hSysE : cSys.stderr = "") :
    ∃ res tr, M.exec (rollback w settings root target true) = (Except.ok res, tr) ∧
      res.ok = true ∧ res.after = none ∧ res.restart_performed = true ∧
      tr.countP Effect.isWrite = 0 ∧
      writesToPath (statePathOf settings root) tr = false := by
  have hRM : restartModeOf settings = "systemd" := by
    unfold restartModeOf
    rw [hMode]
    decide
  simp [rollback, rollbackFinish, rollbackFailed, restartService, getCommitInfo,
    isGitRepo, runCommand, appendLog, M.bind, M.pure, M.emit, M.toSum, M.exec, M.throw,
    excMsg, hRM, hSudo, hRepo, hRepoOk, hRepoOut, hHead, hB, hc, hReset, hRc, hRO, hRE,
    hSys, hSysRc, hSysO, hSysE, Effect.isWrite, writesToPath, List.countP_cons]
  exact ⟨_, _, ⟨rfl, rfl⟩, rfl, rfl, rfl, by simp [Effect.isWrite], by simp⟩

/-- Configuration for the C10 witness scenario. -/
def sSystemd : Settings := { service_restart_mode := some "systemd" }

/-- C10 (witness): concrete world where HEAD resolution fails but reset and
restart succeed. -/
theorem c10_rollback_no_state_write_witness :
    ∃ res tr,
      M.exec (rollback wNoHead sSystemd "/srv/app" (some "abc") true) =
        (Except.ok res, tr) ∧
      res.ok = true ∧ res.after = none ∧ res.restart_performed = true ∧
      tr.countP Effect.isWrite = 0 ∧
      writesToPath (statePathOf sSystemd "/srv/app") tr = false :=
  c10_rollback_no_state_write wNoHead sSystemd "/srv/app" (some "abc")
    ⟨0, "true\n", ""⟩ ⟨1, "", "fatal"⟩ ⟨0, "", ""⟩ ⟨0, "", ""⟩
    rfl rfl rfl rfl (by decide) rfl (by decide) (by decide) (by decide)
    rfl rfl rfl rfl rfl rfl rfl

end Updater


